import Mathlib

/-!
Verification of the Stadt.Geschichte.Basel data validator
(`validate.py`, class `OmekaValidator`): a shallow embedding of the
validation session, the bounded LRU URI cache, the URI liveness checker
and the per-record validation pipeline, together with theorems about
their behaviour.
-/

namespace SGB

/-- JSON-like values as delivered by the Omeka S API (Python objects:
`None`, `bool`, `int`, `str`, `list`, `dict`). -/
inductive JV where
  | null
  | bool (b : Bool)
  | num (n : Int)
  | str (s : String)
  | arr (xs : List JV)
  | obj (fields : List (String × JV))
deriving Repr

mutual

/-- Decidable equality for JSON-like values. -/
def jvDecEq : (a b : JV) → Decidable (a = b)
  | .null, .null => .isTrue rfl
  | .bool a, .bool b =>
    if h : a = b then .isTrue (by rw [h]) else .isFalse (fun hh => by cases hh; exact h rfl)
  | .num a, .num b =>
    if h : a = b then .isTrue (by rw [h]) else .isFalse (fun hh => by cases hh; exact h rfl)
  | .str a, .str b =>
    if h : a = b then .isTrue (by rw [h]) else .isFalse (fun hh => by cases hh; exact h rfl)
  | .arr xs, .arr ys =>
    match jvDecEqList xs ys with
    | .isTrue h => .isTrue (by rw [h])
    | .isFalse h => .isFalse (fun hh => by cases hh; exact h rfl)
  | .obj xs, .obj ys =>
    match jvDecEqObj xs ys with
    | .isTrue h => .isTrue (by rw [h])
    | .isFalse h => .isFalse (fun hh => by cases hh; exact h rfl)
  | .null, .bool _ => .isFalse (nomatch ·)
  | .null, .num _ => .isFalse (nomatch ·)
  | .null, .str _ => .isFalse (nomatch ·)
  | .null, .arr _ => .isFalse (nomatch ·)
  | .null, .obj _ => .isFalse (nomatch ·)
  | .bool _, .null => .isFalse (nomatch ·)
  | .bool _, .num _ => .isFalse (nomatch ·)
  | .bool _, .str _ => .isFalse (nomatch ·)
  | .bool _, .arr _ => .isFalse (nomatch ·)
  | .bool _, .obj _ => .isFalse (nomatch ·)
  | .num _, .null => .isFalse (nomatch ·)
  | .num _, .bool _ => .isFalse (nomatch ·)
  | .num _, .str _ => .isFalse (nomatch ·)
  | .num _, .arr _ => .isFalse (nomatch ·)
  | .num _, .obj _ => .isFalse (nomatch ·)
  | .str _, .null => .isFalse (nomatch ·)
  | .str _, .bool _ => .isFalse (nomatch ·)
  | .str _, .num _ => .isFalse (nomatch ·)
  | .str _, .arr _ => .isFalse (nomatch ·)
  | .str _, .obj _ => .isFalse (nomatch ·)
  | .arr _, .null => .isFalse (nomatch ·)
  | .arr _, .bool _ => .isFalse (nomatch ·)
  | .arr _, .num _ => .isFalse (nomatch ·)
  | .arr _, .str _ => .isFalse (nomatch ·)
  | .arr _, .obj _ => .isFalse (nomatch ·)
  | .obj _, .null => .isFalse (nomatch ·)
  | .obj _, .bool _ => .isFalse (nomatch ·)
  | .obj _, .num _ => .isFalse (nomatch ·)
  | .obj _, .str _ => .isFalse (nomatch ·)
  | .obj _, .arr _ => .isFalse (nomatch ·)

/-- Decidable equality for lists of JSON-like values. -/
def jvDecEqList : (xs ys : List JV) → Decidable (xs = ys)
  | [], [] => .isTrue rfl
  | [], _ :: _ => .isFalse (nomatch ·)
  | _ :: _, [] => .isFalse (nomatch ·)
  | x :: xs, y :: ys =>
    match jvDecEq x y with
    | .isFalse h => .isFalse (fun hh => by cases hh; exact h rfl)
    | .isTrue h1 =>
      match jvDecEqList xs ys with
      | .isTrue h2 => .isTrue (by rw [h1, h2])
      | .isFalse h2 => .isFalse (fun hh => by cases hh; exact h2 rfl)

/-- Decidable equality for JSON-like objects (field lists). -/
def jvDecEqObj : (xs ys : List (String × JV)) → Decidable (xs = ys)
  | [], [] => .isTrue rfl
  | [], _ :: _ => .isFalse (nomatch ·)
  | _ :: _, [] => .isFalse (nomatch ·)
  | (k, v) :: xs, (l, w) :: ys =>
    if hk : k = l then
      match jvDecEq v w with
      | .isFalse h => .isFalse (fun hh => by cases hh; exact h rfl)
      | .isTrue h1 =>
        match jvDecEqObj xs ys with
        | .isTrue h2 => .isTrue (by rw [hk, h1, h2])
        | .isFalse h2 => .isFalse (fun hh => by cases hh; exact h2 rfl)
    else .isFalse (fun hh => by cases hh; exact hk rfl)

end

instance : DecidableEq JV := jvDecEq

/-- A raw record (Python `dict[str, Any]`) with insertion order. -/
abbrev Record := List (String × JV)

/-- `dict.get(key)`: first binding of `key`, if any. -/
def rget (d : Record) (k : String) : Option JV :=
  (d.find? (fun p => p.1 == k)).map (·.2)

/-- Python truthiness (`bool(x)`) for JSON-like values. -/
def truthy : JV → Bool
  | .null => false
  | .bool b => b
  | .num n => n != 0
  | .str s => !s.isEmpty
  | .arr xs => !xs.isEmpty
  | .obj fs => !fs.isEmpty

/-- `x` where `x = d.get(k)` may be absent: Python treats absent as `None`,
hence falsy. -/
def truthyOpt : Option JV → Bool
  | none => false
  | some v => truthy v

/-- Python `str(x)` for the values that reach message interpolation. -/
def pyStr : JV → String
  | .null => "None"
  | .bool true => "True"
  | .bool false => "False"
  | .num n => toString n
  | .str s => s
  | .arr _ => "[...]"
  | .obj _ => "{...}"

/-- Python `repr(x)` for list elements shown in f-strings (ints print bare,
strings quoted). -/
def pyRepr : JV → String
  | .null => "None"
  | .bool true => "True"
  | .bool false => "False"
  | .num n => toString n
  | .str s => "'" ++ s ++ "'"
  | .arr _ => "[...]"
  | .obj _ => "{...}"

/-- Python `f"{ids}"` for a list value: `[a, b, c]` with `repr` elements. -/
def pyReprList (xs : List JV) : String :=
  "[" ++ String.intercalate ", " (xs.map pyRepr) ++ "]"

/-- Substring test on character lists. -/
def listContainsSub (pat : List Char) : List Char → Bool
  | [] => pat.isEmpty
  | c :: rest => pat.isPrefixOf (c :: rest) || listContainsSub pat rest

/-- `pat` occurs as a contiguous substring of `s`. -/
def strContains (s pat : String) : Bool :=
  listContainsSub pat.toList s.toList

/-- Python `str.startswith` (Lean `String.startsWith`), computed on the
character list. -/
def strStartsWith (s p : String) : Bool :=
  p.toList.isPrefixOf s.toList

/-- Python `str.lower` (Lean `String.toLower`), computed on the character
list. -/
def strLower (s : String) : String :=
  ⟨s.toList.map Char.toLower⟩

/-- `DataValidationError` (validate.py): resource type, resource id, field
path and message. -/
structure VError where
  resource_type : String
  resource_id : JV
  field : String
  error : String
deriving Repr, DecidableEq

/-- `DataValidationWarning` (validate.py): resource type, resource id and
message. -/
structure VWarning where
  resource_type : String
  resource_id : JV
  message : String
deriving Repr, DecidableEq

/-- A cached URI check result: `(status_code, redirect_location)`; status
`-1` with the exception text in the second slot for network failures. -/
abbrev CacheVal := Int × Option String

/-- The `OrderedDict` URI cache: front = least recently used, back = most
recently used. -/
abbrev Cache := List (String × CacheVal)

/-- `uri in self.uri_cache` / `self.uri_cache[uri]`. -/
def cacheLookup (c : Cache) (uri : String) : Option CacheVal :=
  (c.find? (fun p => p.1 == uri)).map (·.2)

/-- `OrderedDict.move_to_end(uri)`: move the entry for `uri` (if any) to the
most-recently-used position. -/
def moveToEnd (c : Cache) (uri : String) : Cache :=
  match c.find? (fun p => p.1 == uri) with
  | some e => c.filter (fun p => !(p.1 == uri)) ++ [e]
  | none => c

/-- `OmekaValidator._cache_uri_result`: update-and-promote an existing key,
or append a new entry and evict the least-recently-used one when the size
exceeds `cap` (`uri_cache_max_size`). -/
def cacheUriResult (cap : Nat) (c : Cache) (uri : String) (result : CacheVal) :
    Cache :=
  if (c.find? (fun p => p.1 == uri)).isSome then
    moveToEnd (c.map (fun p => if p.1 == uri then (p.1, result) else p)) uri
  else
    let c2 := c ++ [(uri, result)]
    if cap < c2.length then c2.drop 1 else c2

/-- One cache operation as performed by `check_single_uri` (a hit promotes)
and `_cache_uri_result` (an insert). -/
inductive CacheOp where
  | hit (uri : String)
  | insert (uri : String) (r : CacheVal)

/-- Apply one cache operation. A `hit` on an absent key leaves the cache
unchanged (`check_single_uri` only promotes when the key is present). -/
def applyCacheOp (cap : Nat) (c : Cache) : CacheOp → Cache
  | .hit uri => match cacheLookup c uri with
    | some _ => moveToEnd c uri
    | none => c
  | .insert uri r => cacheUriResult cap c uri r

/-- Run a sequence of cache operations. -/
def runCacheOps (cap : Nat) (c : Cache) (ops : List CacheOp) : Cache :=
  ops.foldl (applyCacheOp cap) c

/-- One HTTP request as issued by `check_single_uri`; the `AsyncClient` is
constructed with `follow_redirects=False`, recorded per request. -/
structure HttpReq where
  method : String
  uri : String
  followRedirects : Bool
deriving Repr, DecidableEq

/-- The HTTP transport collaborator: method and URI to either an exception
message or `(status_code, location_header)`. -/
abbrev Transport := String → String → Except String (Int × Option String)

/-- `OmekaValidator.check_single_uri`, with the transport abstracted:
returns the result, the updated cache, and the requests issued (in order).
A cache hit promotes the entry and issues no request; a miss issues a HEAD
(redirects disabled), retries once with GET exactly when the HEAD status is
405 or 501, maps any transport exception to `(-1, message)`, and caches the
result in every branch before returning it. -/
def checkSingleUri (T : Transport) (cap : Nat) (c : Cache) (uri : String) :
    CacheVal × Cache × List HttpReq :=
  match cacheLookup c uri with
  | some r => (r, moveToEnd c uri, [])
  | none =>
    match T "HEAD" uri with
    | .error e =>
      let result : CacheVal := (-1, some e)
      (result, cacheUriResult cap c uri result, [⟨"HEAD", uri, false⟩])
    | .ok (status, loc) =>
      if status = 405 ∨ status = 501 then
        match T "GET" uri with
        | .error ge =>
          let result : CacheVal := (-1, some ge)
          (result, cacheUriResult cap c uri result,
            [⟨"HEAD", uri, false⟩, ⟨"GET", uri, false⟩])
        | .ok (s2, l2) =>
          ((s2, l2), cacheUriResult cap c uri (s2, l2),
            [⟨"HEAD", uri, false⟩, ⟨"GET", uri, false⟩])
      else
        ((status, loc), cacheUriResult cap c uri (status, loc),
          [⟨"HEAD", uri, false⟩])

/-- The mutable state of an `OmekaValidator` instance that the validation
pipeline reads and writes (the validation session). -/
structure Session where
  errors : List VError
  warnings : List VWarning
  validated_items : Nat
  validated_media : Nat
  checked_uris : Nat
  failed_uris : Nat
  uri_cache : Cache
  uri_cache_max_size : Nat
  item_identifiers : List (JV × List JV)
  media_identifiers : List (JV × List JV)
  items_data : List Record
  media_data : List Record
deriving Repr

/-- The configuration flags of `OmekaValidator.__init__` that the pipeline
consults. -/
structure Config where
  check_uris : Bool
  check_redirects : Bool
  uri_check_severity : String
  enable_profiling : Bool
deriving Repr

/-- A fresh validator session (`OmekaValidator.__init__`). -/
def initSession : Session :=
  { errors := [], warnings := [], validated_items := 0, validated_media := 0,
    checked_uris := 0, failed_uris := 0, uri_cache := [],
    uri_cache_max_size := 10000, item_identifiers := [],
    media_identifiers := [], items_data := [], media_data := [] }

/-- Python f-string rendering of an `Option String`
(`None` prints as `"None"`). -/
def pyStrOpt : Option String → String
  | none => "None"
  | some s => s

/-- The `status_code == -1` block of `check_uri_async`: a network
exception, reported at the configured severity. -/
def uriExceptionCheck (severity : String) (uri rt : String) (rid : JV)
    (field : String) (loc : Option String) (st : Session) : Session :=
  let st := { st with failed_uris := st.failed_uris + 1 }
  let message := s!"URI check failed: {uri} ({pyStrOpt loc})"
  if severity = "error" then
    { st with errors := st.errors ++ [⟨rt, rid, field, message⟩] }
  else
    { st with warnings := st.warnings ++ [⟨rt, rid, field ++ ": " ++ message⟩] }

/-- The `if redirect_location:` body of the redirect block: resolve the
`Location` header against the URI (abstract `urljoin` `UJ`) and compare
the lower-cased netlocs (abstract `urlparse(...).netloc` `UP`); a
differing netloc yields a Warning. A `None` or empty location is skipped. -/
def uriRedirectLoc (UJ : String → String → String) (UP : String → String)
    (uri rt : String) (rid : JV) (field : String) (loc : Option String)
    (st : Session) : Session :=
  match loc with
  | some l =>
    if !l.isEmpty then
      let absolute := UJ uri l
      let original_netloc := strLower (UP uri)
      let redirect_netloc := strLower (UP absolute)
      if original_netloc ≠ redirect_netloc then
        let message := s!"URI redirects to different domain: {uri} -> {absolute}"
        { st with warnings :=
            st.warnings ++ [⟨rt, rid, field ++ ": " ++ message⟩] }
      else st
    else st
  | none => st

/-- The redirect block of `check_uri_async`: when redirect checking is
enabled and the status is a redirect status, inspect the `Location`
header. -/
def uriRedirectCheck (UJ : String → String → String) (UP : String → String)
    (check_redirects : Bool) (uri rt : String) (rid : JV) (field : String)
    (status : Int) (loc : Option String) (st : Session) : Session :=
  if check_redirects ∧ (status = 301 ∨ status = 302 ∨ status = 303 ∨
      status = 307 ∨ status = 308) then
    uriRedirectLoc UJ UP uri rt rid field loc st
  else st

/-- The `status_code >= 400` block of `check_uri_async`: an HTTP error,
escalated to Error for 404 or when the configured severity is `error`. -/
def uriHttpErrorCheck (severity : String) (uri rt : String) (rid : JV)
    (field : String) (status : Int) (st : Session) : Session :=
  if 400 ≤ status then
    let st := { st with failed_uris := st.failed_uris + 1 }
    let message := s!"URI returned HTTP {status}: {uri}"
    if status = 404 ∨ severity = "error" then
      { st with errors := st.errors ++ [⟨rt, rid, field, message⟩] }
    else
      { st with warnings := st.warnings ++ [⟨rt, rid, field ++ ": " ++ message⟩] }
  else st

/-- The classification tail of `OmekaValidator.check_uri_async`
(lines after the `check_single_uri` call): the exception block returns
early; otherwise the redirect block runs, then the HTTP-error block. -/
def classifyUriResult (UJ : String → String → String) (UP : String → String)
    (check_redirects : Bool) (severity : String) (uri rt : String) (rid : JV)
    (field : String) (status : Int) (loc : Option String) (st : Session) :
    Session :=
  if status = -1 then
    uriExceptionCheck severity uri rt rid field loc st
  else
    uriHttpErrorCheck severity uri rt rid field status
      (uriRedirectCheck UJ UP check_redirects uri rt rid field status loc st)

/-- `OmekaValidator.check_uri_async`: early return for empty or
non-HTTP(S) URIs, otherwise count the check, consult/populate the cache
via `check_single_uri`, and classify the result. Also returns the HTTP
requests issued. -/
def checkUriAsync (T : Transport) (UJ : String → String → String)
    (UP : String → String) (cfg : Config) (st : Session) (uri rt : String)
    (rid : JV) (field : String) : Session × List HttpReq :=
  if uri.isEmpty ∨ ¬ (strStartsWith uri "http://" ∨ strStartsWith uri "https://") then
    (st, [])
  else
    let st := { st with checked_uris := st.checked_uris + 1 }
    let out := checkSingleUri T st.uri_cache_max_size st.uri_cache uri
    let st := { st with uri_cache := out.2.1 }
    (classifyUriResult UJ UP cfg.check_redirects cfg.uri_check_severity uri rt
      rid field out.1.1 out.1.2 st, out.2.2)

/-- `OmekaValidator.extract_uris_from_data`: every string `@id` inside the
list entries of `dcterms:`-prefixed fields (tagged `key[idx].@id`), plus a
truthy string `o:original_url`. -/
def extractUrisFromData (d : Record) : List (String × String) :=
  (d.flatMap fun (key, value) =>
    if !strStartsWith key "dcterms:" then []
    else
      match value with
      | .arr props =>
        props.enum.flatMap fun (idx, prop) =>
          match prop with
          | .obj fs =>
            match rget fs "@id" with
            | some (.str uri) =>
              if !uri.isEmpty then [(s!"{key}[{idx}].@id", uri)] else []
            | _ => []
          | _ => []
      | _ => []) ++
  (match rget d "o:original_url" with
   | some (.str u) => if !u.isEmpty then [("o:original_url", u)] else []
   | _ => [])

/-- `OmekaValidator.check_uris_for_resource`: no-op when URI checking is
disabled; otherwise check every extracted URI (the async fan-out joined in
task order). -/
def checkUrisForResource (T : Transport) (UJ : String → String → String)
    (UP : String → String) (cfg : Config) (d : Record) (rt : String) (rid : JV)
    (st : Session) : Session × List HttpReq :=
  if !cfg.check_uris then (st, [])
  else
    (extractUrisFromData d).foldl
      (fun acc fu =>
        let out := checkUriAsync T UJ UP cfg acc.1 fu.2 rt rid fu.1
        (out.1, acc.2 ++ out.2))
      (st, [])

/-- `OmekaValidator._check_missing_field`: Python `None` (key absent or
JSON null) or an empty list counts as missing. -/
def checkMissingField (d : Record) (field_name : String) : Bool :=
  match rget d field_name with
  | none => true
  | some .null => true
  | some (.arr []) => true
  | some _ => false

/-- `OmekaValidator._extract_identifier_value`: the `@value` of the first
entry of a non-empty `dcterms:identifier` list, when that entry is a dict. -/
def extractIdentifierValue (d : Record) : Option JV :=
  match rget d "dcterms:identifier" with
  | some (.arr (first :: _)) =>
    match first with
    | .obj fs => rget fs "@value"
    | _ => none
  | _ => none

/-- `OmekaValidator._check_thumbnail_or_media`: true when both the
thumbnail-URL group and the `o:media` list are missing/empty. -/
def checkThumbnailOrMedia (d : Record) : Bool :=
  let has_thumbnails :=
    match rget d "thumbnail_display_urls" with
    | some (.obj fs) =>
      if !fs.isEmpty then
        truthyOpt (rget fs "large") || truthyOpt (rget fs "medium") ||
          truthyOpt (rget fs "small")
      else false
    | _ => false
  let has_media :=
    match rget d "o:media" with
    | some (.arr (_ :: _)) => true
    | _ => false
  !has_thumbnails && !has_media

/-- The whitespace characters of the regex class `\s` (ASCII subset). -/
def isSpaceChar (c : Char) : Bool :=
  c = ' ' || c = '\t' || c = '\n' || c = '\r' || c = '\x0b' || c = '\x0c'

/-- Case-insensitive literal prefix match, returning the rest on success. -/
def dropPrefixCI : List Char → List Char → Option (List Char)
  | [], s => some s
  | _ :: _, [] => none
  | p :: ps, c :: cs => if p.toLower = c.toLower then dropPrefixCI ps cs else none

/-- Does the regex `(?:https?://|ftp://|www\.)[^\s]+` (IGNORECASE) match at
the start of `s`: a URL prefix followed by at least one non-whitespace
character? -/
def urlMatchAt (s : List Char) : Bool :=
  let after := fun (rest : Option (List Char)) =>
    match rest with
    | some (c :: _) => !isSpaceChar c
    | _ => false
  after (dropPrefixCI "http://".toList s) ||
    after (dropPrefixCI "https://".toList s) ||
    after (dropPrefixCI "ftp://".toList s) ||
    after (dropPrefixCI "www.".toList s)

/-- `re.search` of the URL pattern: a match at some position. -/
def containsUrlChars : List Char → Bool
  | [] => false
  | c :: rest => urlMatchAt (c :: rest) || containsUrlChars rest

/-- `OmekaValidator._contains_url`: only non-empty strings are scanned. -/
def containsUrl : JV → Bool
  | .str s => if s.isEmpty then false else containsUrlChars s.toList
  | _ => false

/-- Python slicing `s[:n]` (by code points). -/
def pyTake (s : String) (n : Nat) : String :=
  ⟨s.toList.take n⟩

/-- The truncated (≤80-char) preview `display_value` used by the literal
URL-leakage warning. -/
def displayValue (s : String) : String :=
  pyTake s 80 ++ (if 80 < s.length then "..." else "")

/-- One entry of the literal URL-leakage scan: emit a warning when the
entry is a dict of `type` `"literal"` whose truthy `@value` contains a URL. -/
def scanLiteralProp (key : String) (idx : Nat) (rt : String) (rid : JV)
    (prop : JV) (st : Session) : Session :=
  match prop with
  | .obj fs =>
    if rget fs "type" = some (.str "literal") then
      match rget fs "@value" with
      | some (.str v) =>
        if !v.isEmpty && containsUrl (.str v) then
          { st with warnings := st.warnings ++
              [⟨rt, rid, s!"{key}[{idx}]: Literal field contains URL: {displayValue v}"⟩] }
        else st
      | _ => st
    else st
  | _ => st

/-- The `enumerate(value)` loop of the URL-leakage scan. -/
def scanLiteralProps (key : String) (rt : String) (rid : JV) (idx : Nat)
    (props : List JV) (st : Session) : Session :=
  match props with
  | [] => st
  | p :: rest =>
    scanLiteralProps key rt rid (idx + 1) rest (scanLiteralProp key idx rt rid p st)

/-- `OmekaValidator._check_literal_fields_for_urls` (issue #22): scan every
list entry of every `dcterms:`-prefixed field. -/
def checkLiteralFieldsForUrls (d : Record) (rt : String) (rid : JV)
    (st : Session) : Session :=
  match d with
  | [] => st
  | (key, value) :: rest =>
    let st :=
      if !strStartsWith key "dcterms:" then st
      else
        match value with
        | .arr props => scanLiteralProps key rt rid 0 props st
        | _ => st
    checkLiteralFieldsForUrls rest rt rid st

/-- The `VocabularyLoader` collaborator: boolean membership predicates
over the raw values handed to it. -/
structure Vocab where
  is_valid_era : JV → Bool
  is_valid_mime_type : JV → Bool
  is_valid_license : JV → Bool
  is_valid_type : JV → Bool
  is_valid_language : JV → Bool
  is_valid_iconclass : JV → Bool

/-- Does the string value start with a digit
(`value[0].isdigit()` after the truthiness guard)? -/
def firstCharDigit : JV → Bool
  | .str s =>
    match s.toList with
    | c :: _ => c.isDigit
    | [] => false
  | _ => false

/-- One entry of a `_validate_vocabularies` loop: a dict entry whose
`valueKey` value is truthy and fails `check` emits an Error at
`field[idx]`. -/
def vocabScanEntry (rt : String) (rid : JV) (field valueKey : String)
    (check : JV → Bool) (msg : JV → String) (idx : Nat) (it : JV)
    (st : Session) : Session :=
  match it with
  | .obj fs =>
    match rget fs valueKey with
    | some v =>
      if truthy v && check v then
        { st with errors := st.errors ++ [⟨rt, rid, s!"{field}[{idx}]", msg v⟩] }
      else st
    | none => st
  | _ => st

/-- One `enumerate` loop of `_validate_vocabularies`. -/
def vocabScan (rt : String) (rid : JV) (field valueKey : String)
    (check : JV → Bool) (msg : JV → String) (idx : Nat) (items : List JV)
    (st : Session) : Session :=
  match items with
  | [] => st
  | it :: rest =>
    vocabScan rt rid field valueKey check msg (idx + 1) rest
      (vocabScanEntry rt rid field valueKey check msg idx it st)

/-- One field of `_validate_vocabularies`: `data.get(field, [])` followed by
the `isinstance(..., list)` guard and the entry loop. -/
def vocabField (d : Record) (rt : String) (rid : JV) (field valueKey : String)
    (check : JV → Bool) (msg : JV → String) (st : Session) : Session :=
  match rget d field with
  | some (.arr items) => vocabScan rt rid field valueKey check msg 0 items st
  | _ => st

/-- `OmekaValidator._validate_vocabularies`: the six vocabulary-controlled
fields, in source order. -/
def validateVocabularies (VL : Vocab) (d : Record) (rt : String) (rid : JV)
    (st : Session) : Session :=
  let st := vocabField d rt rid "dcterms:temporal" "@value"
    (fun v => !VL.is_valid_era v)
    (fun v => s!"Value must be from Era vocabulary: {pyStr v}") st
  let st := vocabField d rt rid "dcterms:format" "@value"
    (fun v => !VL.is_valid_mime_type v)
    (fun v => s!"Value must be from MIME type vocabulary: {pyStr v}") st
  let st := vocabField d rt rid "dcterms:license" "@value"
    (fun v => !VL.is_valid_license v)
    (fun v => s!"Invalid license URI: {pyStr v}") st
  let st := vocabField d rt rid "dcterms:type" "@id"
    (fun v => !VL.is_valid_type v)
    (fun v => s!"Invalid type URI (must be Image or Dataset): {pyStr v}") st
  let st := vocabField d rt rid "dcterms:language" "@value"
    (fun v => !VL.is_valid_language v)
    (fun v => s!"Invalid language code (must be valid ISO 639-1 two-letter code): {pyStr v}") st
  vocabField d rt rid "dcterms:subject" "@value"
    (fun v => firstCharDigit v && !VL.is_valid_iconclass v)
    (fun v => s!"Invalid Iconclass code: {pyStr v}") st

/-- `OmekaValidator._validate_item_additional_checks` (issue #16): the
required-field Errors then the recommended-field Warnings, in source
order. -/
def validateItemAdditionalChecks (d : Record) (item_id : JV) (st : Session) :
    Session :=
  let st :=
    if !truthyOpt (rget d "o:title") then
      { st with errors := st.errors ++ [⟨"Item", item_id, "o:title", "Field is required"⟩] }
    else st
  let st :=
    if checkMissingField d "dcterms:identifier" then
      { st with errors := st.errors ++ [⟨"Item", item_id, "dcterms:identifier", "Field is required"⟩] }
    else st
  let st :=
    if checkMissingField d "dcterms:description" then
      { st with errors := st.errors ++ [⟨"Item", item_id, "dcterms:description", "Field is required"⟩] }
    else st
  let st :=
    if checkMissingField d "dcterms:temporal" then
      { st with errors := st.errors ++ [⟨"Item", item_id, "dcterms:temporal", "Field is required"⟩] }
    else st
  let st :=
    if checkThumbnailOrMedia d then
      { st with warnings := st.warnings ++ [⟨"Item", item_id, "Missing thumbnails (large, medium, small) or media"⟩] }
    else st
  let st :=
    if checkMissingField d "dcterms:language" then
      { st with warnings := st.warnings ++ [⟨"Item", item_id, "Missing dcterms:language"⟩] }
    else st
  if checkMissingField d "dcterms:isPartOf" then
    { st with warnings := st.warnings ++ [⟨"Item", item_id, "Missing dcterms:isPartOf"⟩] }
  else st

/-- The `o:resource_template` recommended-field rule for media: missing
when the value is falsy, or a dict with neither a truthy `@id` nor a
truthy `o:id`. -/
def missingResourceTemplate (d : Record) : Bool :=
  match rget d "o:resource_template" with
  | none => true
  | some rt =>
    if !truthy rt then true
    else
      match rt with
      | .obj fs => !truthyOpt (rget fs "@id") && !truthyOpt (rget fs "o:id")
      | _ => false

/-- `OmekaValidator._validate_media_additional_checks` (issue #16). -/
def validateMediaAdditionalChecks (d : Record) (media_id : JV) (st : Session) :
    Session :=
  let st :=
    if !truthyOpt (rget d "o:title") then
      { st with errors := st.errors ++ [⟨"Media", media_id, "o:title", "Field is required"⟩] }
    else st
  let st :=
    if checkMissingField d "dcterms:identifier" then
      { st with errors := st.errors ++ [⟨"Media", media_id, "dcterms:identifier", "Field is required"⟩] }
    else st
  let st :=
    if checkMissingField d "dcterms:description" then
      { st with errors := st.errors ++ [⟨"Media", media_id, "dcterms:description", "Field is required"⟩] }
    else st
  let st :=
    if checkMissingField d "dcterms:rights" then
      { st with errors := st.errors ++ [⟨"Media", media_id, "dcterms:rights", "Field is required"⟩] }
    else st
  let st :=
    if checkMissingField d "dcterms:license" then
      { st with errors := st.errors ++ [⟨"Media", media_id, "dcterms:license", "Field is required"⟩] }
    else st
  let st :=
    if missingResourceTemplate d then
      { st with warnings := st.warnings ++ [⟨"Media", media_id, "Missing o:resource_template (@id and o:id)"⟩] }
    else st
  let st :=
    if checkThumbnailOrMedia d then
      { st with warnings := st.warnings ++ [⟨"Media", media_id, "Missing thumbnails (large, medium, small) or media"⟩] }
    else st
  let st :=
    if checkMissingField d "dcterms:creator" then
      { st with warnings := st.warnings ++ [⟨"Media", media_id, "Missing dcterms:creator"⟩] }
    else st
  let st :=
    if checkMissingField d "dcterms:publisher" then
      { st with warnings := st.warnings ++ [⟨"Media", media_id, "Missing dcterms:publisher"⟩] }
    else st
  let st :=
    if checkMissingField d "dcterms:temporal" then
      { st with warnings := st.warnings ++ [⟨"Media", media_id, "Missing dcterms:temporal"⟩] }
    else st
  let st :=
    if checkMissingField d "dcterms:type" then
      { st with warnings := st.warnings ++ [⟨"Media", media_id, "Missing dcterms:type"⟩] }
    else st
  let st :=
    if checkMissingField d "dcterms:format" then
      { st with warnings := st.warnings ++ [⟨"Media", media_id, "Missing dcterms:format"⟩] }
    else st
  let st :=
    if checkMissingField d "dcterms:extent" then
      { st with warnings := st.warnings ++ [⟨"Media", media_id, "Missing dcterms:extent"⟩] }
    else st
  let st :=
    if checkMissingField d "dcterms:source" then
      { st with warnings := st.warnings ++ [⟨"Media", media_id, "Missing dcterms:source"⟩] }
    else st
  if checkMissingField d "dcterms:language" then
    { st with warnings := st.warnings ++ [⟨"Media", media_id, "Missing dcterms:language"⟩] }
  else st

/-- Register a resource id under an identifier value
(`self.<type>_identifiers.setdefault`-style append in `validate_item` /
`validate_media`). -/
def identRegister (m : List (JV × List JV)) (k : JV) (i : JV) :
    List (JV × List JV) :=
  if m.any (fun p => p.1 = k) then
    m.map (fun p => if p.1 = k then (p.1, p.2 ++ [i]) else p)
  else m ++ [(k, [i])]

/-- The external schema collaborator (`Item.model_validate` /
`Media.model_validate` via pydantic): a list of violations, each a
location path (already stringified per component) and a message; the
empty list means structurally valid. -/
abbrev SchemaCheck := Record → List (List String × String)

/-- `item_data.get("o:id", "unknown")`: the resource id used for
diagnostics and identifier registration. -/
def resourceIdOf (d : Record) : JV :=
  (rget d "o:id").getD (.str "unknown")

/-- The preamble of `validate_item` that runs before the schema
validation: the profiling capture of the raw record, then the identifier
registration (a truthy extracted identifier value registers the record id
under it). -/
def itemPreamble (cfg : Config) (st : Session) (d : Record) (rid : JV) :
    Session :=
  let st :=
    if cfg.enable_profiling then { st with items_data := st.items_data ++ [d] }
    else st
  match extractIdentifierValue d with
  | some v =>
    if truthy v then
      { st with item_identifiers := identRegister st.item_identifiers v rid }
    else st
  | none => st

/-- The preamble of `validate_media` before the schema validation. -/
def mediaPreamble (cfg : Config) (st : Session) (d : Record) (rid : JV) :
    Session :=
  let st :=
    if cfg.enable_profiling then { st with media_data := st.media_data ++ [d] }
    else st
  match extractIdentifierValue d with
  | some v =>
    if truthy v then
      { st with media_identifiers := identRegister st.media_identifiers v rid }
    else st
  | none => st

/-- The structural-success tail of `validate_item`: count the record, then
the vocabulary, presence, URL-leakage and (when enabled) URI liveness
steps. -/
def itemSuccessSteps (VL : Vocab) (T : Transport)
    (UJ : String → String → String) (UP : String → String) (cfg : Config)
    (d : Record) (item_id : JV) (st : Session) : Session × List HttpReq :=
  let st := { st with validated_items := st.validated_items + 1 }
  let st := validateVocabularies VL d "Item" item_id st
  let st := validateItemAdditionalChecks d item_id st
  let st := checkLiteralFieldsForUrls d "Item" item_id st
  if cfg.check_uris then checkUrisForResource T UJ UP cfg d "Item" item_id st
  else (st, [])

/-- The structural-success tail of `validate_media`. -/
def mediaSuccessSteps (VL : Vocab) (T : Transport)
    (UJ : String → String → String) (UP : String → String) (cfg : Config)
    (d : Record) (media_id : JV) (st : Session) : Session × List HttpReq :=
  let st := { st with validated_media := st.validated_media + 1 }
  let st := validateVocabularies VL d "Media" media_id st
  let st := validateMediaAdditionalChecks d media_id st
  let st := checkLiteralFieldsForUrls d "Media" media_id st
  if cfg.check_uris then checkUrisForResource T UJ UP cfg d "Media" media_id st
  else (st, [])

/-- `OmekaValidator.validate_item`: profiling capture, identifier
registration, schema validation, then on structural success the later
steps, and on violations one Error per violation (dot-joined location)
with the later steps skipped. -/
def validateItem (S : SchemaCheck) (VL : Vocab) (T : Transport)
    (UJ : String → String → String) (UP : String → String) (cfg : Config)
    (st : Session) (d : Record) : Session × List HttpReq :=
  let item_id := resourceIdOf d
  let st := itemPreamble cfg st d item_id
  match S d with
  | [] => itemSuccessSteps VL T UJ UP cfg d item_id st
  | violations =>
    ({ st with errors := st.errors ++ violations.map (fun v =>
        ⟨"Item", item_id, String.intercalate "." v.1, v.2⟩) }, [])

/-- `OmekaValidator.validate_media`. -/
def validateMedia (S : SchemaCheck) (VL : Vocab) (T : Transport)
    (UJ : String → String → String) (UP : String → String) (cfg : Config)
    (st : Session) (d : Record) : Session × List HttpReq :=
  let media_id := resourceIdOf d
  let st := mediaPreamble cfg st d media_id
  match S d with
  | [] => mediaSuccessSteps VL T UJ UP cfg d media_id st
  | violations =>
    ({ st with errors := st.errors ++ violations.map (fun v =>
        ⟨"Media", media_id, String.intercalate "." v.1, v.2⟩) }, [])

/-- The duplicate-identifier message
`f"Duplicate identifier '{identifier}' found in <items|media>: {ids}"`. -/
def dupMessage (in_name : String) (p : JV × List JV) : String :=
  s!"Duplicate identifier '{pyStr p.1}' found in {in_name}: {pyReprList p.2}"

/-- The per-group duplicate-identifier errors of
`OmekaValidator._check_duplicate_identifiers`, for one identifier map. -/
def dupIdentifierErrors (type_name in_name : String) (m : List (JV × List JV)) :
    List VError :=
  m.flatMap fun p =>
    if 1 < p.2.length then
      p.2.map (fun i => ⟨type_name, i, "dcterms:identifier", dupMessage in_name p⟩)
    else []

/-- `OmekaValidator._check_duplicate_identifiers` (the finalize step): item
groups first, then media groups. -/
def checkDuplicateIdentifiers (st : Session) : Session :=
  let st := { st with errors :=
    st.errors ++ dupIdentifierErrors "Item" "items" st.item_identifiers }
  { st with errors :=
    st.errors ++ dupIdentifierErrors "Media" "media" st.media_identifiers }

/-! ### Lemmas about the bounded LRU cache -/

theorem length_filter_not_lt {α : Type} (p : α → Bool) :
    ∀ (l : List α), (l.find? p).isSome →
      (l.filter (fun x => !p x)).length < l.length := by
  intro l
  induction l with
  | nil => intro h; simp [List.find?] at h
  | cons a l ih =>
    intro h
    by_cases hp : p a = true
    · have hle : (List.filter (fun x => !p x) l).length ≤ l.length :=
        List.length_filter_le _ l
      have hf : List.filter (fun x => !p x) (a :: l) =
          List.filter (fun x => !p x) l := by
        rw [List.filter_cons]
        simp [hp]
      rw [hf, List.length_cons]
      omega
    · have h' : (l.find? p).isSome := by
        rw [List.find?_cons_of_neg l hp] at h
        exact h
      have hlt := ih h'
      have hf : List.filter (fun x => !p x) (a :: l) =
          a :: List.filter (fun x => !p x) l := by
        rw [List.filter_cons]
        simp [hp]
      rw [hf, List.length_cons, List.length_cons]
      omega

theorem length_moveToEnd_le (c : Cache) (uri : String) :
    (moveToEnd c uri).length ≤ c.length := by
  unfold moveToEnd
  cases h : c.find? (fun p => p.1 == uri) with
  | none => exact le_refl _
  | some e =>
    have hs : (c.find? (fun p => p.1 == uri)).isSome := by simp [h]
    have hflt : (c.filter (fun p => !(p.1 == uri))).length < c.length :=
      length_filter_not_lt (fun p => p.1 == uri) c hs
    simp only [List.length_append, List.length_cons, List.length_nil]
    omega

theorem cacheUriResult_of_found (cap : Nat) (c : Cache) (uri : String)
    (r : CacheVal) (h : (c.find? (fun p => p.1 == uri)).isSome) :
    cacheUriResult cap c uri r =
      moveToEnd (c.map fun p => if p.1 == uri then (p.1, r) else p) uri := by
  unfold cacheUriResult
  rw [if_pos h]

theorem cacheUriResult_of_fresh (cap : Nat) (c : Cache) (uri : String)
    (r : CacheVal) (h : c.find? (fun p => p.1 == uri) = none) :
    cacheUriResult cap c uri r =
      if cap < c.length + 1 then (c ++ [(uri, r)]).drop 1 else c ++ [(uri, r)] := by
  unfold cacheUriResult
  rw [h]
  simp

theorem length_cacheUriResult_le (cap : Nat) (c : Cache) (uri : String)
    (r : CacheVal) (hc : c.length ≤ cap) :
    (cacheUriResult cap c uri r).length ≤ cap := by
  by_cases h : (c.find? (fun p => p.1 == uri)).isSome
  · rw [cacheUriResult_of_found cap c uri r h]
    have h1 := length_moveToEnd_le (c.map fun p => if p.1 == uri then (p.1, r) else p) uri
    have h2 : (c.map fun p => if p.1 == uri then (p.1, r) else p).length = c.length :=
      List.length_map _ _
    omega
  · have hn : c.find? (fun p => p.1 == uri) = none := by
      cases hf : c.find? (fun p => p.1 == uri) with
      | none => rfl
      | some e => rw [hf] at h; simp at h
    rw [cacheUriResult_of_fresh cap c uri r hn]
    by_cases h2 : cap < c.length + 1
    · rw [if_pos h2]
      have : ((c ++ [(uri, r)]).drop 1).length = (c ++ [(uri, r)]).length - 1 :=
        List.length_drop _ _
      simp only [List.length_append, List.length_cons, List.length_nil] at this
      omega
    · rw [if_neg h2]
      simp only [List.length_append, List.length_cons, List.length_nil]
      omega

theorem length_applyCacheOp_le (cap : Nat) (c : Cache) (op : CacheOp)
    (hc : c.length ≤ cap) : (applyCacheOp cap c op).length ≤ cap := by
  cases op with
  | hit uri =>
    show (match cacheLookup c uri with
      | some _ => moveToEnd c uri
      | none => c).length ≤ cap
    cases h : cacheLookup c uri with
    | none => exact hc
    | some r => exact le_trans (length_moveToEnd_le c uri) hc
  | insert uri r => exact length_cacheUriResult_le cap c uri r hc

theorem length_runCacheOps_le (cap : Nat) :
    ∀ (ops : List CacheOp) (c : Cache), c.length ≤ cap →
      (runCacheOps cap c ops).length ≤ cap := by
  intro ops
  induction ops with
  | nil => intro c hc; simpa [runCacheOps] using hc
  | cons op ops ih =>
    intro c hc
    simpa [runCacheOps, List.foldl_cons] using
      ih (applyCacheOp cap c op) (length_applyCacheOp_le cap c op hc)

theorem moveToEnd_eq_of_lookup (c : Cache) (uri : String) (r : CacheVal)
    (h : cacheLookup c uri = some r) :
    moveToEnd c uri = c.filter (fun p => !(p.1 == uri)) ++ [(uri, r)] := by
  unfold cacheLookup at h
  cases hf : c.find? (fun p => p.1 == uri) with
  | none => simp [hf] at h
  | some e =>
    have he2 : e.2 = r := by
      rw [hf] at h
      simpa using h
    have hpred := List.find?_some hf
    have he1 : e.1 = uri := by simpa using hpred
    have he : e = (uri, r) := by
      cases e
      simp only at he1 he2
      rw [he1, he2]
    unfold moveToEnd
    rw [hf, he]

theorem moveToEnd_cons (p : String × CacheVal) (l : Cache) (uri : String)
    (hp : (p.1 == uri) = false) :
    moveToEnd (p :: l) uri = p :: moveToEnd l uri := by
  unfold moveToEnd
  cases hf : l.find? (fun q => q.1 == uri) with
  | none => simp [List.find?_cons, hp, hf]
  | some e => simp [List.find?_cons, hp, hf, List.filter_cons]

theorem filter_map_update (uri : String) (r : CacheVal) (l : Cache) :
    ((l.map fun q => if q.1 == uri then (q.1, r) else q).filter
      (fun q => !(q.1 == uri))) = l.filter (fun q => !(q.1 == uri)) := by
  induction l with
  | nil => rfl
  | cons q l ihl =>
    by_cases hq : (q.1 == uri) = true
    · rw [List.map_cons, if_pos hq, List.filter_cons, List.filter_cons]
      simp only [hq, Bool.not_true]
      simpa using ihl
    · have hq' : (q.1 == uri) = false := by
        cases hb : (q.1 == uri) with
        | false => rfl
        | true => exact absurd hb hq
      rw [List.map_cons, if_neg (by rw [hq']; exact Bool.false_ne_true),
        List.filter_cons, List.filter_cons]
      simp only [hq', Bool.not_false, if_true]
      rw [ihl]

theorem update_promote_eq (uri : String) (r : CacheVal) :
    ∀ (c : Cache), (c.find? (fun p => p.1 == uri)).isSome →
      moveToEnd (c.map fun p => if p.1 == uri then (p.1, r) else p) uri
        = c.filter (fun p => !(p.1 == uri)) ++ [(uri, r)] := by
  intro c
  induction c with
  | nil => intro h; simp [List.find?] at h
  | cons p c ih =>
    intro h
    by_cases hp : (p.1 == uri) = true
    · have he1 : p.1 = uri := by simpa using hp
      have hmap : ((p :: c).map fun q => if q.1 == uri then (q.1, r) else q)
          = (p.1, r) :: (c.map fun q => if q.1 == uri then (q.1, r) else q) := by
        rw [List.map_cons, if_pos hp]
      rw [hmap]
      unfold moveToEnd
      have hfind : (((p.1, r) :: (c.map fun q => if q.1 == uri then (q.1, r) else q)).find?
          (fun q => q.1 == uri)) = some (p.1, r) := by
        exact List.find?_cons_of_pos _ hp
      rw [hfind, List.filter_cons, List.filter_cons]
      simp only [hp, Bool.not_true, Bool.false_eq_true, if_false]
      rw [filter_map_update uri r c, he1]
    · have hp' : (p.1 == uri) = false := by
        cases hb : (p.1 == uri) with
        | false => rfl
        | true => exact absurd hb hp
      have h' : (c.find? (fun q => q.1 == uri)).isSome := by
        rw [List.find?_cons_of_neg c hp] at h
        exact h
      have hmap : ((p :: c).map fun q => if q.1 == uri then (q.1, r) else q)
          = p :: (c.map fun q => if q.1 == uri then (q.1, r) else q) := by
        rw [List.map_cons, if_neg (by rw [hp']; exact Bool.false_ne_true)]
      rw [hmap, moveToEnd_cons _ _ _ hp', ih h', List.filter_cons]
      simp only [hp', Bool.not_false, if_true, List.cons_append]

theorem cacheUriResult_update_eq (cap : Nat) (c : Cache) (uri : String)
    (r r0 : CacheVal) (h : cacheLookup c uri = some r0) :
    cacheUriResult cap c uri r = c.filter (fun p => !(p.1 == uri)) ++ [(uri, r)] := by
  have hsome : (c.find? (fun p => p.1 == uri)).isSome := by
    unfold cacheLookup at h
    cases hf : c.find? (fun p => p.1 == uri) with
    | none => simp [hf] at h
    | some e => simp
  rw [cacheUriResult_of_found cap c uri r hsome]
  exact update_promote_eq uri r c hsome

theorem cacheUriResult_evict_eq (cap : Nat) (c : Cache) (uri : String)
    (r : CacheVal) (hmiss : cacheLookup c uri = none) (hfull : c.length = cap)
    (hcap : 1 ≤ cap) :
    cacheUriResult cap c uri r = c.drop 1 ++ [(uri, r)] := by
  have hnone : c.find? (fun p => p.1 == uri) = none := by
    unfold cacheLookup at hmiss
    cases hf : c.find? (fun p => p.1 == uri) with
    | none => rfl
    | some e => simp [hf] at hmiss
  rw [cacheUriResult_of_fresh cap c uri r hnone]
  rw [if_pos (by omega)]
  cases c with
  | nil => simp at hfull; omega
  | cons p c' => simp

theorem cacheLookup_cacheUriResult_fresh (cap : Nat) (c : Cache) (uri : String)
    (r : CacheVal) (hmiss : cacheLookup c uri = none) (hcap : 1 ≤ cap) :
    cacheLookup (cacheUriResult cap c uri r) uri = some r := by
  have hnone : c.find? (fun p => p.1 == uri) = none := by
    unfold cacheLookup at hmiss
    cases hf : c.find? (fun p => p.1 == uri) with
    | none => rfl
    | some e => simp [hf] at hmiss
  have hall : ∀ p ∈ c, ¬((p.1 == uri) = true) := by
    intro p hp
    exact List.find?_eq_none.mp hnone p hp
  have happ : ∀ (l : Cache), (∀ p ∈ l, ¬((p.1 == uri) = true)) →
      cacheLookup (l ++ [(uri, r)]) uri = some r := by
    intro l hl
    induction l with
    | nil => simp [cacheLookup, List.find?]
    | cons p l ihl =>
      have hp : (p.1 == uri) = false := by
        have := hl p (List.mem_cons_self p l)
        simpa using this
      have hrest : cacheLookup (l ++ [(uri, r)]) uri = some r :=
        ihl (fun q hq => hl q (List.mem_cons_of_mem p hq))
      unfold cacheLookup at hrest ⊢
      rw [List.cons_append, List.find?_cons_of_neg _ (by rw [hp]; exact Bool.false_ne_true)]
      exact hrest
  rw [cacheUriResult_of_fresh cap c uri r hnone]
  by_cases hlen : cap < c.length + 1
  · rw [if_pos hlen]
    cases c with
    | nil => simp at hlen; omega
    | cons p c' =>
      have hdrop : ((p :: c') ++ [(uri, r)]).drop 1 = c' ++ [(uri, r)] := by simp
      rw [hdrop]
      exact happ c' (fun q hq => hall q (List.mem_cons_of_mem p hq))
  · rw [if_neg hlen]
    exact happ c hall

theorem checkSingleUri_cache_is_op (T : Transport) (cap : Nat) (c : Cache)
    (uri : String) :
    ∃ op, (checkSingleUri T cap c uri).2.1 = applyCacheOp cap c op := by
  unfold checkSingleUri
  cases hl : cacheLookup c uri with
  | some r =>
    refine ⟨.hit uri, ?_⟩
    simp only [applyCacheOp, hl]
  | none =>
    cases hT : T "HEAD" uri with
    | error e =>
      refine ⟨.insert uri (-1, some e), ?_⟩
      simp only [applyCacheOp, hT]
    | ok v =>
      obtain ⟨status, loc⟩ := v
      by_cases hs : status = 405 ∨ status = 501
      · cases hG : T "GET" uri with
        | error ge =>
          refine ⟨.insert uri (-1, some ge), ?_⟩
          simp only [applyCacheOp, hT, hG, if_pos hs]
        | ok v2 =>
          obtain ⟨s2, l2⟩ := v2
          refine ⟨.insert uri (s2, l2), ?_⟩
          simp only [applyCacheOp, hT, hG, if_pos hs]
      · refine ⟨.insert uri (status, loc), ?_⟩
        simp only [applyCacheOp, hT, if_neg hs]

/-- Claim C1: over any sequence of cache operations performed via
`check_single_uri` and `_cache_uri_result`, the URI cache never exceeds its
capacity; a lookup hit promotes the key to most-recently-used keeping its
value; inserting an existing key updates its value and promotes it; a
fresh insert at capacity removes exactly the front (least recently
inserted or accessed) entry; every `check_single_uri` call acts on the
cache as one such operation; and for capacity 3 the access sequence
`url1, url2, url3, url1, url4` evicts `url2`, leaving exactly
`url3, url1, url4`. -/
theorem C1_cache_lru :
    (∀ (cap : Nat) (ops : List CacheOp) (c : Cache), c.length ≤ cap →
      (runCacheOps cap c ops).length ≤ cap)
    ∧ (∀ (c : Cache) (uri : String) (r : CacheVal), cacheLookup c uri = some r →
      moveToEnd c uri = c.filter (fun p => !(p.1 == uri)) ++ [(uri, r)])
    ∧ (∀ (cap : Nat) (c : Cache) (uri : String) (r r0 : CacheVal),
      cacheLookup c uri = some r0 →
      cacheUriResult cap c uri r = c.filter (fun p => !(p.1 == uri)) ++ [(uri, r)])
    ∧ (∀ (cap : Nat) (c : Cache) (uri : String) (r : CacheVal),
      cacheLookup c uri = none → c.length = cap → 1 ≤ cap →
      cacheUriResult cap c uri r = c.drop 1 ++ [(uri, r)])
    ∧ (∀ (T : Transport) (cap : Nat) (c : Cache) (uri : String),
      ∃ op, (checkSingleUri T cap c uri).2.1 = applyCacheOp cap c op)
    ∧ ((let T : Transport := fun _ _ => .ok (200, none)
        let step : Cache → String → Cache := fun c u => (checkSingleUri T 3 c u).2.1
        (step (step (step (step (step [] "url1") "url2") "url3") "url1") "url4").map
          Prod.fst) = ["url3", "url1", "url4"]) := by
  refine ⟨?_, ?_, ?_, ?_, ?_, ?_⟩
  · intro cap ops c hc
    exact length_runCacheOps_le cap ops c hc
  · intro c uri r h
    exact moveToEnd_eq_of_lookup c uri r h
  · intro cap c uri r r0 h
    exact cacheUriResult_update_eq cap c uri r r0 h
  · intro cap c uri r h1 h2 h3
    exact cacheUriResult_evict_eq cap c uri r h1 h2 h3
  · intro T cap c uri
    exact checkSingleUri_cache_is_op T cap c uri
  · rfl

/-- Concrete instantiation of the hypothesis-bearing parts of `C1_cache_lru`. -/
theorem C1_cache_lru_witness :
    ((runCacheOps 2 []
      [.insert "a" (200, none), .insert "b" (200, none),
       .insert "c" (200, none)]).length ≤ 2)
    ∧ (moveToEnd [("a", ((1 : Int), (none : Option String))), ("b", (2, none))] "a"
        = [("a", (1, none)), ("b", (2, none))].filter (fun p => !(p.1 == "a"))
          ++ [("a", (1, none))])
    ∧ (cacheUriResult 10 [("a", ((1 : Int), (none : Option String))), ("b", (2, none))]
        "a" (3, none)
        = [("a", (1, none)), ("b", (2, none))].filter (fun p => !(p.1 == "a"))
          ++ [("a", (3, none))])
    ∧ (cacheUriResult 2 [("a", ((1 : Int), (none : Option String))), ("b", (2, none))]
        "x" (9, none)
        = [("a", (1, none)), ("b", (2, none))].drop 1 ++ [("x", (9, none))]) :=
  ⟨C1_cache_lru.1 2 _ [] (by decide),
   C1_cache_lru.2.1 _ "a" (1, none) (by decide),
   C1_cache_lru.2.2.1 10 _ "a" (3, none) (1, none) (by decide),
   C1_cache_lru.2.2.2.1 2 _ "x" (9, none) (by decide) (by decide) (by decide)⟩

/-- Claim C10: for an empty URI or one not starting with `http://` or
`https://`, `check_uri_async` returns immediately: the session (diagnostic
lists, counters, URI cache) is returned entirely unchanged and no request
is issued. -/
theorem C10_check_uri_async_guard (T : Transport)
    (UJ : String → String → String) (UP : String → String) (cfg : Config)
    (st : Session) (uri rt : String) (rid : JV) (field : String)
    (h : uri = "" ∨ (¬ strStartsWith uri "http://" ∧ ¬ strStartsWith uri "https://")) :
    checkUriAsync T UJ UP cfg st uri rt rid field = (st, []) := by
  unfold checkUriAsync
  rw [if_pos ?_]
  rcases h with h | ⟨h1, h2⟩
  · left
    rw [h]
    rfl
  · right
    intro hc
    rcases hc with hc | hc
    · exact h1 hc
    · exact h2 hc

/-- Concrete instantiation of `C10_check_uri_async_guard` at a
non-HTTP(S) URI. -/
theorem C10_check_uri_async_guard_witness :
    checkUriAsync (fun _ _ => .ok (200, none)) (fun _ l => l) (fun _ => "")
      ⟨true, true, "warning", false⟩ initSession "ftp://example.org" "Item"
      (.num 1) "dcterms:source[0].@id" = (initSession, []) :=
  C10_check_uri_async_guard _ _ _ _ _ _ _ _ _ (Or.inr (by decide))

theorem checkSingleUri_miss_head_error (T : Transport) (cap : Nat) (c : Cache)
    (uri e : String) (hmiss : cacheLookup c uri = none)
    (hT : T "HEAD" uri = .error e) :
    checkSingleUri T cap c uri =
      ((-1, some e), cacheUriResult cap c uri (-1, some e),
        [⟨"HEAD", uri, false⟩]) := by
  simp only [checkSingleUri, hmiss, hT]

theorem checkSingleUri_miss_plain (T : Transport) (cap : Nat) (c : Cache)
    (uri : String) (s : Int) (l : Option String)
    (hmiss : cacheLookup c uri = none) (hT : T "HEAD" uri = .ok (s, l))
    (hs : ¬ (s = 405 ∨ s = 501)) :
    checkSingleUri T cap c uri =
      ((s, l), cacheUriResult cap c uri (s, l), [⟨"HEAD", uri, false⟩]) := by
  simp only [checkSingleUri, hmiss, hT, if_neg hs]

theorem checkSingleUri_miss_retry_ok (T : Transport) (cap : Nat) (c : Cache)
    (uri : String) (s s2 : Int) (l l2 : Option String)
    (hmiss : cacheLookup c uri = none) (hT : T "HEAD" uri = .ok (s, l))
    (hs : s = 405 ∨ s = 501) (hG : T "GET" uri = .ok (s2, l2)) :
    checkSingleUri T cap c uri =
      ((s2, l2), cacheUriResult cap c uri (s2, l2),
        [⟨"HEAD", uri, false⟩, ⟨"GET", uri, false⟩]) := by
  simp only [checkSingleUri, hmiss, hT, if_pos hs, hG]

theorem checkSingleUri_miss_retry_error (T : Transport) (cap : Nat) (c : Cache)
    (uri ge : String) (s : Int) (l : Option String)
    (hmiss : cacheLookup c uri = none) (hT : T "HEAD" uri = .ok (s, l))
    (hs : s = 405 ∨ s = 501) (hG : T "GET" uri = .error ge) :
    checkSingleUri T cap c uri =
      ((-1, some ge), cacheUriResult cap c uri (-1, some ge),
        [⟨"HEAD", uri, false⟩, ⟨"GET", uri, false⟩]) := by
  simp only [checkSingleUri, hmiss, hT, if_pos hs, hG]

/-- Claim C6: on a cache miss, `check_single_uri` issues a HEAD request
first, with redirect-following disabled; a GET retry happens exactly when
the HEAD status is 405 or 501, and then the GET response becomes the
result; a transport exception at either request yields `(-1, message)`;
and in every branch the returned result is found in the cache afterwards. -/
theorem C6_check_single_uri_miss (T : Transport) (cap : Nat) (c : Cache)
    (uri : String) (hmiss : cacheLookup c uri = none) (hcap : 1 ≤ cap) :
    ((checkSingleUri T cap c uri).2.2.head? = some ⟨"HEAD", uri, false⟩)
    ∧ ((∃ s l, T "HEAD" uri = .ok (s, l) ∧ (s = 405 ∨ s = 501)) ↔
        (checkSingleUri T cap c uri).2.2 =
          [⟨"HEAD", uri, false⟩, ⟨"GET", uri, false⟩])
    ∧ ((¬ ∃ s l, T "HEAD" uri = .ok (s, l) ∧ (s = 405 ∨ s = 501)) →
        (checkSingleUri T cap c uri).2.2 = [⟨"HEAD", uri, false⟩])
    ∧ (∀ s l s2 l2, T "HEAD" uri = .ok (s, l) → (s = 405 ∨ s = 501) →
        T "GET" uri = .ok (s2, l2) → (checkSingleUri T cap c uri).1 = (s2, l2))
    ∧ (∀ e, T "HEAD" uri = .error e →
        (checkSingleUri T cap c uri).1 = (-1, some e))
    ∧ (∀ s l ge, T "HEAD" uri = .ok (s, l) → (s = 405 ∨ s = 501) →
        T "GET" uri = .error ge → (checkSingleUri T cap c uri).1 = (-1, some ge))
    ∧ (∀ s l, T "HEAD" uri = .ok (s, l) → ¬ (s = 405 ∨ s = 501) →
        (checkSingleUri T cap c uri).1 = (s, l))
    ∧ (cacheLookup (checkSingleUri T cap c uri).2.1 uri =
        some (checkSingleUri T cap c uri).1) := by
  have cache_ok : ∀ r : CacheVal,
      cacheLookup (cacheUriResult cap c uri r) uri = some r := fun r =>
    cacheLookup_cacheUriResult_fresh cap c uri r hmiss hcap
  cases hT : T "HEAD" uri with
  | error e =>
    have hout := checkSingleUri_miss_head_error T cap c uri e hmiss hT
    rw [hout]
    refine ⟨rfl, ?_, fun _ => rfl, ?_, fun e' he' => ?_, ?_, ?_, cache_ok _⟩
    · constructor
      · rintro ⟨s, l, hok, _⟩
        exact absurd hok (by simp)
      · intro hreq
        exact absurd hreq (by simp)
    · intro s l s2 l2 hok
      exact absurd hok (by simp)
    · injection he' with he''
      rw [he'']
    · intro s l ge hok
      exact absurd hok (by simp)
    · intro s l hok
      exact absurd hok (by simp)
  | ok v =>
    obtain ⟨s, l⟩ := v
    by_cases hs : s = 405 ∨ s = 501
    · cases hG : T "GET" uri with
      | error ge =>
        have hout := checkSingleUri_miss_retry_error T cap c uri ge s l hmiss hT hs hG
        rw [hout]
        refine ⟨rfl, ⟨fun _ => rfl, fun _ => ⟨s, l, rfl, hs⟩⟩, ?_, ?_, ?_, ?_, ?_,
          cache_ok _⟩
        · intro hno
          exact absurd ⟨s, l, rfl, hs⟩ hno
        · intro s' l' s2 l2 hok hs' hG'
          exact absurd hG' (by simp)
        · intro e' he'
          exact absurd he' (by simp)
        · intro s' l' ge' hok hs' hG'
          injection hG' with hge
          rw [hge]
        · intro s' l' hok hs'
          injection hok with hok'
          cases hok'
          exact absurd hs hs'
      | ok v2 =>
        obtain ⟨s2, l2⟩ := v2
        have hout := checkSingleUri_miss_retry_ok T cap c uri s s2 l l2 hmiss hT hs hG
        rw [hout]
        refine ⟨rfl, ⟨fun _ => rfl, fun _ => ⟨s, l, rfl, hs⟩⟩, ?_, ?_, ?_, ?_, ?_,
          cache_ok _⟩
        · intro hno
          exact absurd ⟨s, l, rfl, hs⟩ hno
        · intro s' l' s2' l2' hok hs' hG'
          exact Except.ok.inj hG'
        · intro e' he'
          exact absurd he' (by simp)
        · intro s' l' ge' hok hs' hG'
          exact absurd hG' (by simp)
        · intro s' l' hok hs'
          injection hok with hok'
          cases hok'
          exact absurd hs hs'
    · have hout := checkSingleUri_miss_plain T cap c uri s l hmiss hT hs
      rw [hout]
      refine ⟨rfl, ?_, fun _ => rfl, ?_, ?_, ?_, ?_, cache_ok _⟩
      · constructor
        · rintro ⟨s', l', hok, hs'⟩
          injection hok with hok'
          cases hok'
          exact absurd hs' hs
        · intro hreq
          exact absurd hreq (by simp)
      · intro s' l' s2 l2 hok hs'
        injection hok with hok'
        cases hok'
        exact absurd hs' hs
      · intro e' he'
        exact absurd he' (by simp)
      · intro s' l' ge' hok hs'
        injection hok with hok'
        cases hok'
        exact absurd hs' hs
      · intro s' l' hok _
        exact Except.ok.inj hok

/-- Concrete instantiation of `C6_check_single_uri_miss`: a 405 server
whose GET succeeds with 200, checked through an empty cache. -/
theorem C6_check_single_uri_miss_witness :
    ((checkSingleUri
        (fun m _ => if m = "HEAD" then .ok (405, none) else .ok (200, none))
        10000 [] "https://example.org/x").2.2.head? =
      some ⟨"HEAD", "https://example.org/x", false⟩)
    ∧ (cacheLookup
        (checkSingleUri
          (fun m _ => if m = "HEAD" then .ok (405, none) else .ok (200, none))
          10000 [] "https://example.org/x").2.1 "https://example.org/x" =
        some (checkSingleUri
          (fun m _ => if m = "HEAD" then .ok (405, none) else .ok (200, none))
          10000 [] "https://example.org/x").1) :=
  ⟨(C6_check_single_uri_miss _ 10000 [] _ (by decide) (by decide)).1,
   (C6_check_single_uri_miss _ 10000 [] _ (by decide) (by decide)).2.2.2.2.2.2.2⟩

/-! ### Lemmas about the severity classification of URI check results -/

theorem uriRedirectLoc_errors_eq (UJ : String → String → String)
    (UP : String → String) (uri rt : String) (rid : JV) (field : String)
    (loc : Option String) (st : Session) :
    (uriRedirectLoc UJ UP uri rt rid field loc st).errors = st.errors := by
  cases loc with
  | none => rfl
  | some l =>
    show (if (!l.isEmpty) = true then _ else st).errors = st.errors
    split
    · split <;> rfl
    · rfl

theorem uriRedirectCheck_errors_eq (UJ : String → String → String)
    (UP : String → String) (cr : Bool) (uri rt : String) (rid : JV)
    (field : String) (status : Int) (loc : Option String) (st : Session) :
    (uriRedirectCheck UJ UP cr uri rt rid field status loc st).errors =
      st.errors := by
  unfold uriRedirectCheck
  split
  · exact uriRedirectLoc_errors_eq UJ UP uri rt rid field loc st
  · rfl

theorem uriRedirectCheck_skip_of_not_redirect (UJ : String → String → String)
    (UP : String → String) (cr : Bool) (uri rt : String) (rid : JV)
    (field : String) (status : Int) (loc : Option String) (st : Session)
    (h : ¬ (status = 301 ∨ status = 302 ∨ status = 303 ∨ status = 307 ∨
      status = 308)) :
    uriRedirectCheck UJ UP cr uri rt rid field status loc st = st := by
  unfold uriRedirectCheck
  rw [if_neg (fun hc => h hc.2)]

theorem uriRedirectCheck_eq_self_of_same_netloc (UJ : String → String → String)
    (UP : String → String) (cr : Bool) (uri rt : String) (rid : JV)
    (field : String) (status : Int) (loc : Option String) (st : Session)
    (h : cr = true → (status = 301 ∨ status = 302 ∨ status = 303 ∨
        status = 307 ∨ status = 308) →
      ∀ l, loc = some l → l.isEmpty = false →
        strLower (UP uri) = strLower (UP (UJ uri l))) :
    uriRedirectCheck UJ UP cr uri rt rid field status loc st = st := by
  unfold uriRedirectCheck
  by_cases hc : (cr = true ∧ (status = 301 ∨ status = 302 ∨ status = 303 ∨
      status = 307 ∨ status = 308))
  · rw [if_pos hc]
    cases loc with
    | none => rfl
    | some l =>
      show (if (!l.isEmpty) = true then _ else st) = st
      by_cases hl : (!l.isEmpty) = true
      · rw [if_pos hl]
        have hls : l.isEmpty = false := by
          cases hb : l.isEmpty with
          | false => rfl
          | true => rw [hb] at hl; exact absurd hl (by decide)
        rw [if_neg ?_]
        intro hne
        exact hne (h hc.1 hc.2 l rfl hls)
      · rw [if_neg hl]
  · rw [if_neg hc]

theorem uriRedirectCheck_cross_domain (UJ : String → String → String)
    (UP : String → String) (uri rt : String) (rid : JV) (field : String)
    (status : Int) (l : String) (st : Session)
    (hset : status = 301 ∨ status = 302 ∨ status = 303 ∨ status = 307 ∨
      status = 308)
    (hl : l.isEmpty = false)
    (hnet : strLower (UP uri) ≠ strLower (UP (UJ uri l))) :
    uriRedirectCheck UJ UP true uri rt rid field status (some l) st =
      { st with warnings := st.warnings ++
          [⟨rt, rid, field ++ ": " ++
            s!"URI redirects to different domain: {uri} -> {UJ uri l}"⟩] } := by
  unfold uriRedirectCheck
  rw [if_pos ⟨rfl, hset⟩]
  show (if (!l.isEmpty) = true then _ else st) = _
  rw [if_pos (by rw [hl]; rfl)]
  rw [if_pos hnet]

theorem uriHttpErrorCheck_404 (sev uri rt : String) (rid : JV) (field : String)
    (st : Session) :
    uriHttpErrorCheck sev uri rt rid field 404 st =
      { st with
        failed_uris := st.failed_uris + 1
        errors := st.errors ++
          [⟨rt, rid, field, s!"URI returned HTTP {(404 : Int)}: {uri}"⟩] } := by
  unfold uriHttpErrorCheck
  rw [if_pos (by decide), if_pos (Or.inl rfl)]

theorem uriHttpErrorCheck_skip (sev uri rt : String) (rid : JV) (field : String)
    (status : Int) (st : Session) (h : status < 400) :
    uriHttpErrorCheck sev uri rt rid field status st = st := by
  unfold uriHttpErrorCheck
  rw [if_neg (by omega)]

theorem uriHttpErrorCheck_errors_eq (sev uri rt : String) (rid : JV)
    (field : String) (status : Int) (st : Session) (hsev : sev ≠ "error")
    (h404 : status ≠ 404) :
    (uriHttpErrorCheck sev uri rt rid field status st).errors = st.errors := by
  unfold uriHttpErrorCheck
  by_cases h : 400 ≤ status
  · have hne : ¬ (status = 404 ∨ sev = "error") := by
      rintro (hc | hc)
      · exact h404 hc
      · exact hsev hc
    rw [if_pos h, if_neg hne]
  · rw [if_neg h]

theorem uriHttpErrorCheck_warnings_eq (uri rt : String) (rid : JV)
    (field : String) (status : Int) (st : Session) :
    (uriHttpErrorCheck "error" uri rt rid field status st).warnings =
      st.warnings := by
  unfold uriHttpErrorCheck
  by_cases h : 400 ≤ status
  · rw [if_pos h, if_pos (Or.inr rfl)]
  · rw [if_neg h]

theorem uriExceptionCheck_errors_eq (sev uri rt : String) (rid : JV)
    (field : String) (loc : Option String) (st : Session)
    (hsev : sev ≠ "error") :
    (uriExceptionCheck sev uri rt rid field loc st).errors = st.errors := by
  unfold uriExceptionCheck
  rw [if_neg hsev]

theorem uriExceptionCheck_warnings_eq (uri rt : String) (rid : JV)
    (field : String) (loc : Option String) (st : Session) :
    (uriExceptionCheck "error" uri rt rid field loc st).warnings =
      st.warnings := by
  unfold uriExceptionCheck
  rw [if_pos rfl]

/-- Claim C2: the diagnostics of `check_uri_async` follow the configured
`uri_check_severity` except for two hard-coded overrides: a 404 result is
always an Error (even under `"warning"`), and a cross-domain redirect
(redirect status, enabled check, non-empty Location, differing lower-cased
netloc after resolution) is always a Warning (even under `"error"`).
Conversely, under `"warning"` no Error is produced for non-404 statuses,
and under `"error"` no Warning is produced unless a cross-domain redirect
occurs. -/
theorem C2_severity_overrides :
    (∀ (UJ : String → String → String) (UP : String → String) (cr : Bool)
      (sev uri rt : String) (rid : JV) (field : String) (loc : Option String)
      (st : Session),
      classifyUriResult UJ UP cr sev uri rt rid field 404 loc st =
        { st with
          failed_uris := st.failed_uris + 1
          errors := st.errors ++
            [⟨rt, rid, field, s!"URI returned HTTP {(404 : Int)}: {uri}"⟩] })
    ∧ (∀ (UJ : String → String → String) (UP : String → String)
      (sev uri rt : String) (rid : JV) (field : String) (status : Int)
      (l : String) (st : Session),
      (status = 301 ∨ status = 302 ∨ status = 303 ∨ status = 307 ∨
        status = 308) →
      l.isEmpty = false →
      strLower (UP uri) ≠ strLower (UP (UJ uri l)) →
      classifyUriResult UJ UP true sev uri rt rid field status (some l) st =
        { st with warnings := st.warnings ++
            [⟨rt, rid, field ++ ": " ++
              s!"URI redirects to different domain: {uri} -> {UJ uri l}"⟩] })
    ∧ (∀ (UJ : String → String → String) (UP : String → String) (cr : Bool)
      (uri rt : String) (rid : JV) (field : String) (status : Int)
      (loc : Option String) (st : Session), status ≠ 404 →
      (classifyUriResult UJ UP cr "warning" uri rt rid field status loc
        st).errors = st.errors)
    ∧ (∀ (UJ : String → String → String) (UP : String → String) (cr : Bool)
      (uri rt : String) (rid : JV) (field : String) (status : Int)
      (loc : Option String) (st : Session),
      (cr = true → (status = 301 ∨ status = 302 ∨ status = 303 ∨
          status = 307 ∨ status = 308) →
        ∀ l, loc = some l → l.isEmpty = false →
          strLower (UP uri) = strLower (UP (UJ uri l))) →
      (classifyUriResult UJ UP cr "error" uri rt rid field status loc
        st).warnings = st.warnings) := by
  refine ⟨?_, ?_, ?_, ?_⟩
  · intro UJ UP cr sev uri rt rid field loc st
    unfold classifyUriResult
    rw [if_neg (by decide)]
    rw [uriRedirectCheck_skip_of_not_redirect UJ UP cr uri rt rid field 404 loc
      st (by rintro (h | h | h | h | h) <;> simp at h)]
    exact uriHttpErrorCheck_404 sev uri rt rid field st
  · intro UJ UP sev uri rt rid field status l st hset hl hnet
    unfold classifyUriResult
    rw [if_neg (by rcases hset with h | h | h | h | h <;> omega)]
    rw [uriRedirectCheck_cross_domain UJ UP uri rt rid field status l st hset
      hl hnet]
    exact uriHttpErrorCheck_skip sev uri rt rid field status _
      (by rcases hset with h | h | h | h | h <;> omega)
  · intro UJ UP cr uri rt rid field status loc st h404
    unfold classifyUriResult
    by_cases hm1 : status = -1
    · rw [if_pos hm1]
      exact uriExceptionCheck_errors_eq "warning" uri rt rid field loc st
        (by decide)
    · rw [if_neg hm1]
      rw [uriHttpErrorCheck_errors_eq "warning" uri rt rid field status _
        (by decide) h404]
      exact uriRedirectCheck_errors_eq UJ UP cr uri rt rid field status loc st
  · intro UJ UP cr uri rt rid field status loc st hno
    unfold classifyUriResult
    by_cases hm1 : status = -1
    · rw [if_pos hm1]
      exact uriExceptionCheck_warnings_eq uri rt rid field loc st
    · rw [if_neg hm1]
      rw [uriHttpErrorCheck_warnings_eq uri rt rid field status _]
      rw [uriRedirectCheck_eq_self_of_same_netloc UJ UP cr uri rt rid field
        status loc st hno]

/-- Concrete instantiation of the hypothesis-bearing parts of
`C2_severity_overrides`: a 301 redirect to another host yields a Warning
even at severity `"error"`; a 500 at severity `"warning"` leaves the
errors empty; a plain 301 with redirect checking off at severity `"error"`
leaves the warnings empty. -/
theorem C2_severity_overrides_witness :
    (classifyUriResult (fun _ l => l) (fun s => s) true "error"
      "https://a.example/x" "Item" (.num 1) "f" 301
      (some "https://b.example/y") initSession =
      { initSession with warnings := initSession.warnings ++
          [⟨"Item", .num 1, "f" ++ ": " ++
            s!"URI redirects to different domain: https://a.example/x -> https://b.example/y"⟩] })
    ∧ ((classifyUriResult (fun _ l => l) (fun s => s) true "warning"
        "https://a.example/x" "Item" (.num 1) "f" 500 none
        initSession).errors = initSession.errors)
    ∧ ((classifyUriResult (fun _ l => l) (fun s => s) false "error"
        "https://a.example/x" "Item" (.num 1) "f" 301
        (some "https://b.example/y") initSession).warnings =
        initSession.warnings) :=
  ⟨C2_severity_overrides.2.1 _ _ "error" _ "Item" (.num 1) "f" 301
      "https://b.example/y" initSession (Or.inl rfl) (by decide) (by decide),
   C2_severity_overrides.2.2.1 _ _ true _ "Item" (.num 1) "f" 500 none
      initSession (by decide),
   C2_severity_overrides.2.2.2 _ _ false _ "Item" (.num 1) "f" 301 _
      initSession (fun hcr => nomatch hcr)⟩

/-! ### Lemmas about the literal URL-leakage scan -/

theorem scanLiteralProp_errors_eq (key : String) (idx : Nat) (rt : String)
    (rid : JV) (prop : JV) (st : Session) :
    (scanLiteralProp key idx rt rid prop st).errors = st.errors := by
  unfold scanLiteralProp
  split
  · split
    · split
      · split <;> rfl
      · rfl
    · rfl
  · rfl

theorem scanLiteralProps_errors_eq (key rt : String) (rid : JV) :
    ∀ (props : List JV) (idx : Nat) (st : Session),
      (scanLiteralProps key rt rid idx props st).errors = st.errors := by
  intro props
  induction props with
  | nil => intro idx st; rfl
  | cons p rest ih =>
    intro idx st
    show (scanLiteralProps key rt rid (idx + 1) rest
      (scanLiteralProp key idx rt rid p st)).errors = st.errors
    rw [ih (idx + 1) (scanLiteralProp key idx rt rid p st)]
    exact scanLiteralProp_errors_eq key idx rt rid p st

theorem checkLiteralFieldsForUrls_errors_eq (rt : String) (rid : JV) :
    ∀ (d : Record) (st : Session),
      (checkLiteralFieldsForUrls d rt rid st).errors = st.errors := by
  intro d
  induction d with
  | nil => intro st; rfl
  | cons kv rest ih =>
    intro st
    obtain ⟨key, value⟩ := kv
    show (checkLiteralFieldsForUrls rest rt rid _).errors = st.errors
    rw [ih]
    by_cases hk : (!strStartsWith key "dcterms:") = true
    · rw [if_pos hk]
    · rw [if_neg hk]
      cases value <;> first
        | rfl
        | exact scanLiteralProps_errors_eq key rt rid _ 0 st

/-- Claim C8: the literal URL-leakage scan never produces an Error; a
`dcterms:`-prefixed field entry of type `"literal"` whose non-empty
`@value` matches the URL pattern produces exactly one Warning whose
message carries the field path `key[idx]` and the ≤80-character truncated
preview; an entry of any other type (for instance `"uri"`) is never
scanned; and the truncated preview is at most 80 characters. -/
theorem C8_literal_url_scan :
    (∀ (d : Record) (rt : String) (rid : JV) (st : Session),
      (checkLiteralFieldsForUrls d rt rid st).errors = st.errors)
    ∧ (∀ (key v : String) (rt : String) (rid : JV) (st : Session),
      strStartsWith key "dcterms:" = true → v ≠ "" →
      containsUrl (.str v) = true →
      checkLiteralFieldsForUrls
        [(key, .arr [.obj [("type", .str "literal"), ("@value", .str v)]])]
        rt rid st =
        { st with warnings := st.warnings ++
            [⟨rt, rid, s!"{key}[{(0 : Nat)}]: Literal field contains URL: {displayValue v}"⟩] })
    ∧ (∀ (key v ty : String) (rt : String) (rid : JV) (st : Session),
      ty ≠ "literal" →
      checkLiteralFieldsForUrls
        [(key, .arr [.obj [("type", .str ty), ("@value", .str v)]])]
        rt rid st = st)
    ∧ (∀ v : String, (pyTake v 80).length ≤ 80
        ∧ (displayValue v = pyTake v 80 ∨
           displayValue v = pyTake v 80 ++ "...")) := by
  refine ⟨?_, ?_, ?_, ?_⟩
  · intro d rt rid st
    exact checkLiteralFieldsForUrls_errors_eq rt rid d st
  · intro key v rt rid st hk hv hurl
    have hvb : v.isEmpty = false := by
      cases hb : v.isEmpty with
      | false => rfl
      | true => exact absurd ((String.isEmpty_iff v).mp hb) hv
    simp [checkLiteralFieldsForUrls, scanLiteralProps, scanLiteralProp, rget,
      hk, hvb, hurl]
  · intro key v ty rt rid st hty
    by_cases hk : strStartsWith key "dcterms:" = true
    · simp [checkLiteralFieldsForUrls, scanLiteralProps, scanLiteralProp, rget,
        hk, hty]
    · have hk' : strStartsWith key "dcterms:" = false := by
        cases hb : strStartsWith key "dcterms:" with
        | false => rfl
        | true => exact absurd hb hk
      simp [checkLiteralFieldsForUrls, hk']
  · intro v
    constructor
    · show (String.mk (v.toList.take 80)).length ≤ 80
      have hlen : (String.mk (v.toList.take 80)).length =
          (v.toList.take 80).length := rfl
      rw [hlen]
      exact List.length_take_le 80 v.toList
    · unfold displayValue
      by_cases h : 80 < v.length
      · right
        rw [if_pos h]
      · left
        rw [if_neg h]
        exact String.append_empty _

/-- Concrete instantiation of `C8_literal_url_scan`: a literal field
containing a URL yields exactly one Warning with the field path and
preview; the same content typed `"uri"` yields no diagnostic. -/
theorem C8_literal_url_scan_witness :
    (checkLiteralFieldsForUrls
      [("dcterms:description", .arr [.obj [("type", .str "literal"),
        ("@value", .str "Visit https://example.com for more")]])]
      "Item" (.num 1) initSession =
      { initSession with warnings :=
          [⟨"Item", .num 1,
            "dcterms:description[0]: Literal field contains URL: Visit https://example.com for more"⟩] })
    ∧ (checkLiteralFieldsForUrls
      [("dcterms:description", .arr [.obj [("type", .str "uri"),
        ("@value", .str "Visit https://example.com for more")]])]
      "Item" (.num 1) initSession = initSession) :=
  ⟨by
    rw [C8_literal_url_scan.2.1 "dcterms:description"
      "Visit https://example.com for more" "Item" (.num 1) initSession
      (by decide) (by decide) (by decide)]
    rfl,
   C8_literal_url_scan.2.2.1 "dcterms:description"
     "Visit https://example.com for more" "uri" "Item" (.num 1) initSession
     (by decide)⟩

/-! ### The required-vs-recommended presence partition (issue #16) -/

/-- A property entry of type `literal` with the given `@value`. -/
def litEntry (v : String) : JV :=
  .obj [("type", .str "literal"), ("@value", .str v)]

/-- A minimal valid Item record: every field of the issue-16 policy table
present (with `o:media` as the thumbnails-or-media representative). -/
def minimalItem : Record :=
  [("o:id", .num 1),
   ("o:title", .str "A title"),
   ("dcterms:identifier", .arr [litEntry "abc-123"]),
   ("dcterms:description", .arr [litEntry "A description"]),
   ("dcterms:temporal", .arr [litEntry "1200-1500"]),
   ("o:media", .arr [.obj [("@id", .str "m")]]),
   ("dcterms:language", .arr [litEntry "de"]),
   ("dcterms:isPartOf", .arr [litEntry "part"])]

/-- A minimal valid Media record: every field of the issue-16 policy table
present (with `thumbnail_display_urls` as the thumbnails-or-media
representative). -/
def minimalMedia : Record :=
  [("o:id", .num 2),
   ("o:title", .str "A media title"),
   ("dcterms:identifier", .arr [litEntry "abc-123-m"]),
   ("dcterms:description", .arr [litEntry "A description"]),
   ("dcterms:rights", .arr [litEntry "All rights reserved"]),
   ("dcterms:license", .arr [litEntry "https://license.example"]),
   ("o:resource_template", .obj [("o:id", .num 5)]),
   ("thumbnail_display_urls", .obj [("large", .str "https://thumb.example/l")]),
   ("dcterms:creator", .arr [litEntry "Creator"]),
   ("dcterms:publisher", .arr [litEntry "Publisher"]),
   ("dcterms:temporal", .arr [litEntry "1200-1500"]),
   ("dcterms:type", .arr [.obj [("@id", .str "http://purl.org/dc/dcmitype/Image")]]),
   ("dcterms:format", .arr [litEntry "image/jpeg"]),
   ("dcterms:extent", .arr [litEntry "10x10 cm"]),
   ("dcterms:source", .arr [litEntry "Source"]),
   ("dcterms:language", .arr [litEntry "de"])]

/-- Delete one field from a record (the one-field-at-a-time deletion of the
partition property). -/
def removeField (d : Record) (f : String) : Record :=
  d.filter (fun p => !(p.1 == f))

/-- Claim C7: `_check_missing_field` holds exactly when the key is absent,
the value is null, or the value is an empty list; and for the minimal
valid Item/Media records, deleting a required field yields exactly one new
Error (`"Field is required"`) and no Warning, while deleting a recommended
field yields exactly one new Warning and no Error, per the issue-16 policy
table. -/
theorem C7_required_recommended_partition :
    (∀ (d : Record) (f : String), checkMissingField d f = true ↔
      (rget d f = none ∨ rget d f = some .null ∨ rget d f = some (.arr [])))
    ∧ ((validateItemAdditionalChecks minimalItem (.num 1) initSession).errors = []
      ∧ (validateItemAdditionalChecks minimalItem (.num 1) initSession).warnings = [])
    ∧ ((validateItemAdditionalChecks (removeField minimalItem "o:title") (.num 1)
        initSession).errors = [⟨"Item", .num 1, "o:title", "Field is required"⟩]
      ∧ (validateItemAdditionalChecks (removeField minimalItem "o:title") (.num 1)
        initSession).warnings = [])
    ∧ ((validateItemAdditionalChecks (removeField minimalItem "dcterms:identifier")
        (.num 1) initSession).errors =
        [⟨"Item", .num 1, "dcterms:identifier", "Field is required"⟩]
      ∧ (validateItemAdditionalChecks (removeField minimalItem "dcterms:identifier")
        (.num 1) initSession).warnings = [])
    ∧ ((validateItemAdditionalChecks (removeField minimalItem "dcterms:description")
        (.num 1) initSession).errors =
        [⟨"Item", .num 1, "dcterms:description", "Field is required"⟩]
      ∧ (validateItemAdditionalChecks (removeField minimalItem "dcterms:description")
        (.num 1) initSession).warnings = [])
    ∧ ((validateItemAdditionalChecks (removeField minimalItem "dcterms:temporal")
        (.num 1) initSession).errors =
        [⟨"Item", .num 1, "dcterms:temporal", "Field is required"⟩]
      ∧ (validateItemAdditionalChecks (removeField minimalItem "dcterms:temporal")
        (.num 1) initSession).warnings = [])
    ∧ ((validateItemAdditionalChecks (removeField minimalItem "o:media") (.num 1)
        initSession).errors = []
      ∧ (validateItemAdditionalChecks (removeField minimalItem "o:media") (.num 1)
        initSession).warnings =
        [⟨"Item", .num 1, "Missing thumbnails (large, medium, small) or media"⟩])
    ∧ ((validateItemAdditionalChecks (removeField minimalItem "dcterms:language")
        (.num 1) initSession).errors = []
      ∧ (validateItemAdditionalChecks (removeField minimalItem "dcterms:language")
        (.num 1) initSession).warnings =
        [⟨"Item", .num 1, "Missing dcterms:language"⟩])
    ∧ ((validateItemAdditionalChecks (removeField minimalItem "dcterms:isPartOf")
        (.num 1) initSession).errors = []
      ∧ (validateItemAdditionalChecks (removeField minimalItem "dcterms:isPartOf")
        (.num 1) initSession).warnings =
        [⟨"Item", .num 1, "Missing dcterms:isPartOf"⟩])
    ∧ ((validateMediaAdditionalChecks minimalMedia (.num 2) initSession).errors = []
      ∧ (validateMediaAdditionalChecks minimalMedia (.num 2) initSession).warnings = [])
    ∧ ((validateMediaAdditionalChecks (removeField minimalMedia "o:title") (.num 2)
        initSession).errors = [⟨"Media", .num 2, "o:title", "Field is required"⟩]
      ∧ (validateMediaAdditionalChecks (removeField minimalMedia "o:title") (.num 2)
        initSession).warnings = [])
    ∧ ((validateMediaAdditionalChecks (removeField minimalMedia "dcterms:identifier")
        (.num 2) initSession).errors =
        [⟨"Media", .num 2, "dcterms:identifier", "Field is required"⟩]
      ∧ (validateMediaAdditionalChecks (removeField minimalMedia "dcterms:identifier")
        (.num 2) initSession).warnings = [])
    ∧ ((validateMediaAdditionalChecks (removeField minimalMedia "dcterms:description")
        (.num 2) initSession).errors =
        [⟨"Media", .num 2, "dcterms:description", "Field is required"⟩]
      ∧ (validateMediaAdditionalChecks (removeField minimalMedia "dcterms:description")
        (.num 2) initSession).warnings = [])
    ∧ ((validateMediaAdditionalChecks (removeField minimalMedia "dcterms:rights")
        (.num 2) initSession).errors =
        [⟨"Media", .num 2, "dcterms:rights", "Field is required"⟩]
      ∧ (validateMediaAdditionalChecks (removeField minimalMedia "dcterms:rights")
        (.num 2) initSession).warnings = [])
    ∧ ((validateMediaAdditionalChecks (removeField minimalMedia "dcterms:license")
        (.num 2) initSession).errors =
        [⟨"Media", .num 2, "dcterms:license", "Field is required"⟩]
      ∧ (validateMediaAdditionalChecks (removeField minimalMedia "dcterms:license")
        (.num 2) initSession).warnings = [])
    ∧ ((validateMediaAdditionalChecks (removeField minimalMedia "o:resource_template")
        (.num 2) initSession).errors = []
      ∧ (validateMediaAdditionalChecks (removeField minimalMedia "o:resource_template")
        (.num 2) initSession).warnings =
        [⟨"Media", .num 2, "Missing o:resource_template (@id and o:id)"⟩])
    ∧ ((validateMediaAdditionalChecks (removeField minimalMedia "thumbnail_display_urls")
        (.num 2) initSession).errors = []
      ∧ (validateMediaAdditionalChecks (removeField minimalMedia "thumbnail_display_urls")
        (.num 2) initSession).warnings =
        [⟨"Media", .num 2, "Missing thumbnails (large, medium, small) or media"⟩])
    ∧ ((validateMediaAdditionalChecks (removeField minimalMedia "dcterms:creator")
        (.num 2) initSession).errors = []
      ∧ (validateMediaAdditionalChecks (removeField minimalMedia "dcterms:creator")
        (.num 2) initSession).warnings =
        [⟨"Media", .num 2, "Missing dcterms:creator"⟩])
    ∧ ((validateMediaAdditionalChecks (removeField minimalMedia "dcterms:publisher")
        (.num 2) initSession).errors = []
      ∧ (validateMediaAdditionalChecks (removeField minimalMedia "dcterms:publisher")
        (.num 2) initSession).warnings =
        [⟨"Media", .num 2, "Missing dcterms:publisher"⟩])
    ∧ ((validateMediaAdditionalChecks (removeField minimalMedia "dcterms:temporal")
        (.num 2) initSession).errors = []
      ∧ (validateMediaAdditionalChecks (removeField minimalMedia "dcterms:temporal")
        (.num 2) initSession).warnings =
        [⟨"Media", .num 2, "Missing dcterms:temporal"⟩])
    ∧ ((validateMediaAdditionalChecks (removeField minimalMedia "dcterms:type")
        (.num 2) initSession).errors = []
      ∧ (validateMediaAdditionalChecks (removeField minimalMedia "dcterms:type")
        (.num 2) initSession).warnings =
        [⟨"Media", .num 2, "Missing dcterms:type"⟩])
    ∧ ((validateMediaAdditionalChecks (removeField minimalMedia "dcterms:format")
        (.num 2) initSession).errors = []
      ∧ (validateMediaAdditionalChecks (removeField minimalMedia "dcterms:format")
        (.num 2) initSession).warnings =
        [⟨"Media", .num 2, "Missing dcterms:format"⟩])
    ∧ ((validateMediaAdditionalChecks (removeField minimalMedia "dcterms:extent")
        (.num 2) initSession).errors = []
      ∧ (validateMediaAdditionalChecks (removeField minimalMedia "dcterms:extent")
        (.num 2) initSession).warnings =
        [⟨"Media", .num 2, "Missing dcterms:extent"⟩])
    ∧ ((validateMediaAdditionalChecks (removeField minimalMedia "dcterms:source")
        (.num 2) initSession).errors = []
      ∧ (validateMediaAdditionalChecks (removeField minimalMedia "dcterms:source")
        (.num 2) initSession).warnings =
        [⟨"Media", .num 2, "Missing dcterms:source"⟩])
    ∧ ((validateMediaAdditionalChecks (removeField minimalMedia "dcterms:language")
        (.num 2) initSession).errors = []
      ∧ (validateMediaAdditionalChecks (removeField minimalMedia "dcterms:language")
        (.num 2) initSession).warnings =
        [⟨"Media", .num 2, "Missing dcterms:language"⟩]) := by
  refine ⟨?_, ?_, ?_, ?_, ?_, ?_, ?_, ?_, ?_, ?_, ?_, ?_, ?_, ?_, ?_, ?_, ?_,
    ?_, ?_, ?_, ?_, ?_, ?_, ?_, ?_⟩
  · intro d f
    unfold checkMissingField
    cases hr : rget d f with
    | none => simp
    | some v =>
      cases v with
      | null => simp
      | bool b => simp
      | num n => simp
      | str s => simp
      | arr xs => cases xs <;> simp
      | obj fs => simp
  all_goals exact ⟨by decide, by decide⟩

/-! ### The schema-validation gate of `validate_item` / `validate_media` -/

theorem itemPreamble_frame (cfg : Config) (st : Session)
    (d : Record) (rid : JV) :
    (itemPreamble cfg st d rid).errors = st.errors
    ∧ (itemPreamble cfg st d rid).warnings = st.warnings
    ∧ (itemPreamble cfg st d rid).validated_items = st.validated_items
    ∧ (itemPreamble cfg st d rid).validated_media = st.validated_media
    ∧ (itemPreamble cfg st d rid).checked_uris = st.checked_uris
    ∧ (itemPreamble cfg st d rid).failed_uris = st.failed_uris
    ∧ (itemPreamble cfg st d rid).uri_cache = st.uri_cache := by
  refine ⟨?_, ?_, ?_, ?_, ?_, ?_, ?_⟩ <;>
    (unfold itemPreamble
     repeat first | rfl | split)

theorem mediaPreamble_frame (cfg : Config) (st : Session)
    (d : Record) (rid : JV) :
    (mediaPreamble cfg st d rid).errors = st.errors
    ∧ (mediaPreamble cfg st d rid).warnings = st.warnings
    ∧ (mediaPreamble cfg st d rid).validated_items = st.validated_items
    ∧ (mediaPreamble cfg st d rid).validated_media = st.validated_media
    ∧ (mediaPreamble cfg st d rid).checked_uris = st.checked_uris
    ∧ (mediaPreamble cfg st d rid).failed_uris = st.failed_uris
    ∧ (mediaPreamble cfg st d rid).uri_cache = st.uri_cache := by
  refine ⟨?_, ?_, ?_, ?_, ?_, ?_, ?_⟩ <;>
    (unfold mediaPreamble
     repeat first | rfl | split)

/-- Claim C3: when the external schema collaborator reports violations,
`validate_item`/`validate_media` turns each into one Error whose field is
the dot-joined location and whose message is the collaborator's message,
and none of the later steps (vocabulary, presence, URL-leakage, URI
liveness) run — the session's warnings, counters and URI cache are
untouched and no request is issued; when it reports none, the whole
success pipeline runs. -/
theorem C3_schema_gate :
    (∀ (S : SchemaCheck) (VL : Vocab) (T : Transport)
      (UJ : String → String → String) (UP : String → String) (cfg : Config)
      (st : Session) (d : Record), S d ≠ [] →
      validateItem S VL T UJ UP cfg st d =
        ({ itemPreamble cfg st d (resourceIdOf d) with
            errors := (itemPreamble cfg st d (resourceIdOf d)).errors ++
              (S d).map (fun v =>
                ⟨"Item", resourceIdOf d, String.intercalate "." v.1, v.2⟩) }, []))
    ∧ (∀ (S : SchemaCheck) (VL : Vocab) (T : Transport)
      (UJ : String → String → String) (UP : String → String) (cfg : Config)
      (st : Session) (d : Record), S d ≠ [] →
      ((validateItem S VL T UJ UP cfg st d).1.warnings = st.warnings
      ∧ (validateItem S VL T UJ UP cfg st d).1.validated_items =
          st.validated_items
      ∧ (validateItem S VL T UJ UP cfg st d).1.checked_uris = st.checked_uris
      ∧ (validateItem S VL T UJ UP cfg st d).1.failed_uris = st.failed_uris
      ∧ (validateItem S VL T UJ UP cfg st d).1.uri_cache = st.uri_cache
      ∧ (validateItem S VL T UJ UP cfg st d).2 = []))
    ∧ (∀ (S : SchemaCheck) (VL : Vocab) (T : Transport)
      (UJ : String → String → String) (UP : String → String) (cfg : Config)
      (st : Session) (d : Record), S d = [] →
      validateItem S VL T UJ UP cfg st d =
        itemSuccessSteps VL T UJ UP cfg d (resourceIdOf d)
          (itemPreamble cfg st d (resourceIdOf d)))
    ∧ (∀ (S : SchemaCheck) (VL : Vocab) (T : Transport)
      (UJ : String → String → String) (UP : String → String) (cfg : Config)
      (st : Session) (d : Record), S d ≠ [] →
      validateMedia S VL T UJ UP cfg st d =
        ({ mediaPreamble cfg st d (resourceIdOf d) with
            errors := (mediaPreamble cfg st d (resourceIdOf d)).errors ++
              (S d).map (fun v =>
                ⟨"Media", resourceIdOf d, String.intercalate "." v.1, v.2⟩) }, []))
    ∧ (∀ (S : SchemaCheck) (VL : Vocab) (T : Transport)
      (UJ : String → String → String) (UP : String → String) (cfg : Config)
      (st : Session) (d : Record), S d = [] →
      validateMedia S VL T UJ UP cfg st d =
        mediaSuccessSteps VL T UJ UP cfg d (resourceIdOf d)
          (mediaPreamble cfg st d (resourceIdOf d))) := by
  have hitem : ∀ (S : SchemaCheck) (VL : Vocab) (T : Transport)
      (UJ : String → String → String) (UP : String → String) (cfg : Config)
      (st : Session) (d : Record), S d ≠ [] →
      validateItem S VL T UJ UP cfg st d =
        ({ itemPreamble cfg st d (resourceIdOf d) with
            errors := (itemPreamble cfg st d (resourceIdOf d)).errors ++
              (S d).map (fun v =>
                ⟨"Item", resourceIdOf d, String.intercalate "." v.1, v.2⟩) }, []) := by
    intro S VL T UJ UP cfg st d hS
    cases hSd : S d with
    | nil => exact absurd hSd hS
    | cons v vs => simp only [validateItem, hSd]
  refine ⟨hitem, ?_, ?_, ?_, ?_⟩
  · intro S VL T UJ UP cfg st d hS
    rw [hitem S VL T UJ UP cfg st d hS]
    obtain ⟨-, hw, hvi, -, hcu, hfu, hca⟩ :=
      itemPreamble_frame cfg st d (resourceIdOf d)
    exact ⟨hw, hvi, hcu, hfu, hca, rfl⟩
  · intro S VL T UJ UP cfg st d hS
    simp only [validateItem, hS]
  · intro S VL T UJ UP cfg st d hS
    cases hSd : S d with
    | nil => exact absurd hSd hS
    | cons v vs => simp only [validateMedia, hSd]
  · intro S VL T UJ UP cfg st d hS
    simp only [validateMedia, hS]

/-- Concrete instantiation of `C3_schema_gate`: one schema violation on an
otherwise-empty record becomes one Error with the dot-joined path, and a
violation-free record runs the success pipeline. -/
theorem C3_schema_gate_witness :
    (validateItem (fun _ => [(["o:title", "0"], "Input should be a valid string")])
      ⟨fun _ => true, fun _ => true, fun _ => true, fun _ => true, fun _ => true,
        fun _ => true⟩
      (fun _ _ => .ok (200, none)) (fun _ l => l) (fun _ => "")
      ⟨false, false, "warning", false⟩ initSession [("o:id", .num 7)] =
      ({ initSession with errors :=
          [⟨"Item", .num 7, "o:title.0", "Input should be a valid string"⟩] }, []))
    ∧ (validateItem (fun _ => [])
      ⟨fun _ => true, fun _ => true, fun _ => true, fun _ => true, fun _ => true,
        fun _ => true⟩
      (fun _ _ => .ok (200, none)) (fun _ l => l) (fun _ => "")
      ⟨false, false, "warning", false⟩ initSession [("o:id", .num 7)] =
      itemSuccessSteps
        ⟨fun _ => true, fun _ => true, fun _ => true, fun _ => true, fun _ => true,
          fun _ => true⟩
        (fun _ _ => .ok (200, none)) (fun _ l => l) (fun _ => "")
        ⟨false, false, "warning", false⟩ [("o:id", .num 7)] (.num 7)
        (itemPreamble ⟨false, false, "warning", false⟩ initSession
          [("o:id", .num 7)] (.num 7))) :=
  ⟨by
    rw [C3_schema_gate.1 _ _ _ _ _ _ initSession [("o:id", .num 7)]
      (by decide)]
    rfl,
   by
    rw [C3_schema_gate.2.2.1 _ _ _ _ _ _ initSession [("o:id", .num 7)] rfl]
    rfl⟩

/-! ### Frame lemmas: the identifier maps are only written by the
registration preamble -/

/-- Both identifier maps of a session, for frame reasoning. -/
def idMaps (st : Session) : List (JV × List JV) × List (JV × List JV) :=
  (st.item_identifiers, st.media_identifiers)

theorem idMaps_vocabScanEntry (rt : String) (rid : JV) (field valueKey : String)
    (check : JV → Bool) (msg : JV → String) (idx : Nat) (it : JV)
    (st : Session) :
    idMaps (vocabScanEntry rt rid field valueKey check msg idx it st) =
      idMaps st := by
  unfold vocabScanEntry
  repeat first | rfl | split

theorem idMaps_vocabScan (rt : String) (rid : JV) (field valueKey : String)
    (check : JV → Bool) (msg : JV → String) :
    ∀ (items : List JV) (idx : Nat) (st : Session),
      idMaps (vocabScan rt rid field valueKey check msg idx items st) =
        idMaps st := by
  intro items
  induction items with
  | nil => intro idx st; rfl
  | cons it rest ih =>
    intro idx st
    show idMaps (vocabScan rt rid field valueKey check msg (idx + 1) rest
      (vocabScanEntry rt rid field valueKey check msg idx it st)) = idMaps st
    rw [ih (idx + 1) _]
    exact idMaps_vocabScanEntry rt rid field valueKey check msg idx it st

theorem idMaps_vocabField (d : Record) (rt : String) (rid : JV)
    (field valueKey : String) (check : JV → Bool) (msg : JV → String)
    (st : Session) :
    idMaps (vocabField d rt rid field valueKey check msg st) = idMaps st := by
  unfold vocabField
  split
  · exact idMaps_vocabScan rt rid field valueKey check msg _ 0 st
  · rfl

theorem idMaps_validateVocabularies (VL : Vocab) (d : Record) (rt : String)
    (rid : JV) (st : Session) :
    idMaps (validateVocabularies VL d rt rid st) = idMaps st := by
  unfold validateVocabularies
  rw [idMaps_vocabField, idMaps_vocabField, idMaps_vocabField,
    idMaps_vocabField, idMaps_vocabField, idMaps_vocabField]

theorem idMaps_if_warn (c : Prop) [Decidable c] (s : Session) (w : VWarning) :
    idMaps (if c then { s with warnings := s.warnings ++ [w] } else s) =
      idMaps s := by
  split <;> rfl

theorem idMaps_if_err (c : Prop) [Decidable c] (s : Session) (e : VError) :
    idMaps (if c then { s with errors := s.errors ++ [e] } else s) =
      idMaps s := by
  split <;> rfl

theorem idMaps_validateItemAdditionalChecks (d : Record) (item_id : JV)
    (st : Session) :
    idMaps (validateItemAdditionalChecks d item_id st) = idMaps st := by
  unfold validateItemAdditionalChecks
  rw [idMaps_if_warn, idMaps_if_warn, idMaps_if_warn, idMaps_if_err,
    idMaps_if_err, idMaps_if_err, idMaps_if_err]

theorem idMaps_validateMediaAdditionalChecks (d : Record) (media_id : JV)
    (st : Session) :
    idMaps (validateMediaAdditionalChecks d media_id st) = idMaps st := by
  unfold validateMediaAdditionalChecks
  rw [idMaps_if_warn, idMaps_if_warn, idMaps_if_warn, idMaps_if_warn,
    idMaps_if_warn, idMaps_if_warn, idMaps_if_warn, idMaps_if_warn,
    idMaps_if_warn, idMaps_if_warn, idMaps_if_err, idMaps_if_err,
    idMaps_if_err, idMaps_if_err, idMaps_if_err]

theorem idMaps_scanLiteralProp (key : String) (idx : Nat) (rt : String)
    (rid : JV) (prop : JV) (st : Session) :
    idMaps (scanLiteralProp key idx rt rid prop st) = idMaps st := by
  unfold scanLiteralProp
  repeat first | rfl | split

theorem idMaps_scanLiteralProps (key rt : String) (rid : JV) :
    ∀ (props : List JV) (idx : Nat) (st : Session),
      idMaps (scanLiteralProps key rt rid idx props st) = idMaps st := by
  intro props
  induction props with
  | nil => intro idx st; rfl
  | cons p rest ih =>
    intro idx st
    show idMaps (scanLiteralProps key rt rid (idx + 1) rest
      (scanLiteralProp key idx rt rid p st)) = idMaps st
    rw [ih (idx + 1) _]
    exact idMaps_scanLiteralProp key idx rt rid p st

theorem idMaps_checkLiteralFieldsForUrls (rt : String) (rid : JV) :
    ∀ (d : Record) (st : Session),
      idMaps (checkLiteralFieldsForUrls d rt rid st) = idMaps st := by
  intro d
  induction d with
  | nil => intro st; rfl
  | cons kv rest ih =>
    intro st
    obtain ⟨key, value⟩ := kv
    show idMaps (checkLiteralFieldsForUrls rest rt rid _) = idMaps st
    rw [ih]
    by_cases hk : (!strStartsWith key "dcterms:") = true
    · rw [if_pos hk]
    · rw [if_neg hk]
      cases value <;> first
        | rfl
        | exact idMaps_scanLiteralProps key rt rid _ 0 st

theorem idMaps_uriExceptionCheck (sev uri rt : String) (rid : JV)
    (field : String) (loc : Option String) (st : Session) :
    idMaps (uriExceptionCheck sev uri rt rid field loc st) = idMaps st := by
  unfold uriExceptionCheck
  split <;> rfl

theorem idMaps_uriRedirectLoc (UJ : String → String → String)
    (UP : String → String) (uri rt : String) (rid : JV) (field : String)
    (loc : Option String) (st : Session) :
    idMaps (uriRedirectLoc UJ UP uri rt rid field loc st) = idMaps st := by
  cases loc with
  | none => rfl
  | some l =>
    show idMaps (if (!l.isEmpty) = true then _ else st) = idMaps st
    split
    · split <;> rfl
    · rfl

theorem idMaps_uriRedirectCheck (UJ : String → String → String)
    (UP : String → String) (cr : Bool) (uri rt : String) (rid : JV)
    (field : String) (status : Int) (loc : Option String) (st : Session) :
    idMaps (uriRedirectCheck UJ UP cr uri rt rid field status loc st) =
      idMaps st := by
  unfold uriRedirectCheck
  split
  · exact idMaps_uriRedirectLoc UJ UP uri rt rid field loc st
  · rfl

theorem idMaps_uriHttpErrorCheck (sev uri rt : String) (rid : JV)
    (field : String) (status : Int) (st : Session) :
    idMaps (uriHttpErrorCheck sev uri rt rid field status st) = idMaps st := by
  unfold uriHttpErrorCheck
  split
  · split <;> rfl
  · rfl

theorem idMaps_classifyUriResult (UJ : String → String → String)
    (UP : String → String) (cr : Bool) (sev uri rt : String) (rid : JV)
    (field : String) (status : Int) (loc : Option String) (st : Session) :
    idMaps (classifyUriResult UJ UP cr sev uri rt rid field status loc st) =
      idMaps st := by
  unfold classifyUriResult
  split
  · exact idMaps_uriExceptionCheck sev uri rt rid field loc st
  · rw [idMaps_uriHttpErrorCheck, idMaps_uriRedirectCheck]

theorem idMaps_checkUriAsync (T : Transport) (UJ : String → String → String)
    (UP : String → String) (cfg : Config) (st : Session) (uri rt : String)
    (rid : JV) (field : String) :
    idMaps (checkUriAsync T UJ UP cfg st uri rt rid field).1 = idMaps st := by
  unfold checkUriAsync
  split
  · rfl
  · exact idMaps_classifyUriResult UJ UP cfg.check_redirects
      cfg.uri_check_severity uri rt rid field _ _ _

theorem idMaps_checkUrisForResource (T : Transport)
    (UJ : String → String → String) (UP : String → String) (cfg : Config)
    (d : Record) (rt : String) (rid : JV) (st : Session) :
    idMaps (checkUrisForResource T UJ UP cfg d rt rid st).1 = idMaps st := by
  unfold checkUrisForResource
  split
  · rfl
  · have hfold : ∀ (L : List (String × String)) (acc : Session × List HttpReq),
        idMaps (L.foldl (fun acc fu =>
          let out := checkUriAsync T UJ UP cfg acc.1 fu.2 rt rid fu.1
          (out.1, acc.2 ++ out.2)) acc).1 = idMaps acc.1 := by
      intro L
      induction L with
      | nil => intro acc; rfl
      | cons fu rest ih =>
        intro acc
        rw [List.foldl_cons, ih]
        exact idMaps_checkUriAsync T UJ UP cfg acc.1 fu.2 rt rid fu.1
    exact hfold (extractUrisFromData d) (st, [])

theorem idMaps_itemSuccessSteps (VL : Vocab) (T : Transport)
    (UJ : String → String → String) (UP : String → String) (cfg : Config)
    (d : Record) (item_id : JV) (st : Session) :
    idMaps (itemSuccessSteps VL T UJ UP cfg d item_id st).1 = idMaps st := by
  unfold itemSuccessSteps
  split
  · rw [idMaps_checkUrisForResource, idMaps_checkLiteralFieldsForUrls,
      idMaps_validateItemAdditionalChecks, idMaps_validateVocabularies]
    rfl
  · show idMaps (checkLiteralFieldsForUrls d "Item" item_id _) = idMaps st
    rw [idMaps_checkLiteralFieldsForUrls, idMaps_validateItemAdditionalChecks,
      idMaps_validateVocabularies]
    rfl

theorem idMaps_mediaSuccessSteps (VL : Vocab) (T : Transport)
    (UJ : String → String → String) (UP : String → String) (cfg : Config)
    (d : Record) (media_id : JV) (st : Session) :
    idMaps (mediaSuccessSteps VL T UJ UP cfg d media_id st).1 = idMaps st := by
  unfold mediaSuccessSteps
  split
  · rw [idMaps_checkUrisForResource, idMaps_checkLiteralFieldsForUrls,
      idMaps_validateMediaAdditionalChecks, idMaps_validateVocabularies]
    rfl
  · show idMaps (checkLiteralFieldsForUrls d "Media" media_id _) = idMaps st
    rw [idMaps_checkLiteralFieldsForUrls, idMaps_validateMediaAdditionalChecks,
      idMaps_validateVocabularies]
    rfl

theorem itemPreamble_item_identifiers (cfg : Config) (st : Session)
    (d : Record) (rid : JV) (v : JV) (hext : extractIdentifierValue d = some v)
    (htr : truthy v = true) :
    (itemPreamble cfg st d rid).item_identifiers =
      identRegister st.item_identifiers v rid := by
  unfold itemPreamble
  rw [hext]
  show (if truthy v = true then _ else _ : Session).item_identifiers = _
  rw [if_pos htr]
  show identRegister (if cfg.enable_profiling = true then _ else st).item_identifiers v rid = _
  have hp : (if cfg.enable_profiling = true then
      { st with items_data := st.items_data ++ [d] } else st).item_identifiers =
      st.item_identifiers := by
    split <;> rfl
  rw [hp]

theorem mediaPreamble_media_identifiers (cfg : Config) (st : Session)
    (d : Record) (rid : JV) (v : JV) (hext : extractIdentifierValue d = some v)
    (htr : truthy v = true) :
    (mediaPreamble cfg st d rid).media_identifiers =
      identRegister st.media_identifiers v rid := by
  unfold mediaPreamble
  rw [hext]
  show (if truthy v = true then _ else _ : Session).media_identifiers = _
  rw [if_pos htr]
  show identRegister (if cfg.enable_profiling = true then _ else st).media_identifiers v rid = _
  have hp : (if cfg.enable_profiling = true then
      { st with media_data := st.media_data ++ [d] } else st).media_identifiers =
      st.media_identifiers := by
    split <;> rfl
  rw [hp]

/-- Claim C5: a record declaring a non-empty identifier (the `@value` of
the first `dcterms:identifier` entry) has its id appended to the
identifier index by `validate_item`/`validate_media` regardless of the
schema-validation outcome; consequently a schema-invalid record can still
cause duplicate-identifier Errors at finalization, shown on a concrete
two-record batch where the second record fails schema validation yet both
records receive the duplicate Error. -/
theorem C5_register_regardless_of_outcome :
    (∀ (S : SchemaCheck) (VL : Vocab) (T : Transport)
      (UJ : String → String → String) (UP : String → String) (cfg : Config)
      (st : Session) (d : Record) (v : JV),
      extractIdentifierValue d = some v → truthy v = true →
      (validateItem S VL T UJ UP cfg st d).1.item_identifiers =
        identRegister st.item_identifiers v (resourceIdOf d))
    ∧ (∀ (S : SchemaCheck) (VL : Vocab) (T : Transport)
      (UJ : String → String → String) (UP : String → String) (cfg : Config)
      (st : Session) (d : Record) (v : JV),
      extractIdentifierValue d = some v → truthy v = true →
      (validateMedia S VL T UJ UP cfg st d).1.media_identifiers =
        identRegister st.media_identifiers v (resourceIdOf d))
    ∧ ((checkDuplicateIdentifiers
        (validateItem
          (fun d => if rget d "o:id" = some (.num 20) then
            [(["o:title"], "Input should be a valid string")] else [])
          ⟨fun _ => true, fun _ => true, fun _ => true, fun _ => true,
            fun _ => true, fun _ => true⟩
          (fun _ _ => .ok (200, none)) (fun _ l => l) (fun _ => "")
          ⟨false, false, "warning", false⟩
          (validateItem
            (fun d => if rget d "o:id" = some (.num 20) then
              [(["o:title"], "Input should be a valid string")] else [])
            ⟨fun _ => true, fun _ => true, fun _ => true, fun _ => true,
              fun _ => true, fun _ => true⟩
            (fun _ _ => .ok (200, none)) (fun _ l => l) (fun _ => "")
            ⟨false, false, "warning", false⟩ initSession
            [("o:id", .num 10), ("o:title", .str "T"),
             ("dcterms:identifier", .arr [litEntry "dup-1"]),
             ("dcterms:description", .arr [litEntry "D"]),
             ("dcterms:temporal", .arr [litEntry "E"])]).1
          [("o:id", .num 20),
           ("dcterms:identifier", .arr [litEntry "dup-1"])]).1).errors =
      [⟨"Item", .num 20, "o:title", "Input should be a valid string"⟩,
       ⟨"Item", .num 10, "dcterms:identifier",
         "Duplicate identifier 'dup-1' found in items: [10, 20]"⟩,
       ⟨"Item", .num 20, "dcterms:identifier",
         "Duplicate identifier 'dup-1' found in items: [10, 20]"⟩]) := by
  refine ⟨?_, ?_, ?_⟩
  · intro S VL T UJ UP cfg st d v hext htr
    cases hS : S d with
    | nil =>
      have hred : validateItem S VL T UJ UP cfg st d =
          itemSuccessSteps VL T UJ UP cfg d (resourceIdOf d)
            (itemPreamble cfg st d (resourceIdOf d)) := by
        simp only [validateItem, hS]
      rw [hred]
      have hmaps := congrArg Prod.fst (idMaps_itemSuccessSteps VL T UJ UP cfg d
        (resourceIdOf d) (itemPreamble cfg st d (resourceIdOf d)))
      have hmaps' : (itemSuccessSteps VL T UJ UP cfg d (resourceIdOf d)
          (itemPreamble cfg st d (resourceIdOf d))).1.item_identifiers =
          (itemPreamble cfg st d (resourceIdOf d)).item_identifiers := hmaps
      rw [hmaps']
      exact itemPreamble_item_identifiers cfg st d (resourceIdOf d) v hext htr
    | cons w ws =>
      have hred : validateItem S VL T UJ UP cfg st d =
          ({ itemPreamble cfg st d (resourceIdOf d) with
              errors := (itemPreamble cfg st d (resourceIdOf d)).errors ++
                (w :: ws).map (fun u =>
                  ⟨"Item", resourceIdOf d, String.intercalate "." u.1, u.2⟩) },
            []) := by
        simp only [validateItem, hS]
      rw [hred]
      exact itemPreamble_item_identifiers cfg st d (resourceIdOf d) v hext htr
  · intro S VL T UJ UP cfg st d v hext htr
    cases hS : S d with
    | nil =>
      have hred : validateMedia S VL T UJ UP cfg st d =
          mediaSuccessSteps VL T UJ UP cfg d (resourceIdOf d)
            (mediaPreamble cfg st d (resourceIdOf d)) := by
        simp only [validateMedia, hS]
      rw [hred]
      have hmaps := congrArg Prod.snd (idMaps_mediaSuccessSteps VL T UJ UP cfg d
        (resourceIdOf d) (mediaPreamble cfg st d (resourceIdOf d)))
      have hmaps' : (mediaSuccessSteps VL T UJ UP cfg d (resourceIdOf d)
          (mediaPreamble cfg st d (resourceIdOf d))).1.media_identifiers =
          (mediaPreamble cfg st d (resourceIdOf d)).media_identifiers := hmaps
      rw [hmaps']
      exact mediaPreamble_media_identifiers cfg st d (resourceIdOf d) v hext htr
    | cons w ws =>
      have hred : validateMedia S VL T UJ UP cfg st d =
          ({ mediaPreamble cfg st d (resourceIdOf d) with
              errors := (mediaPreamble cfg st d (resourceIdOf d)).errors ++
                (w :: ws).map (fun u =>
                  ⟨"Media", resourceIdOf d, String.intercalate "." u.1, u.2⟩) },
            []) := by
        simp only [validateMedia, hS]
      rw [hred]
      exact mediaPreamble_media_identifiers cfg st d (resourceIdOf d) v hext htr
  · decide

/-- Concrete instantiation of the hypothesis-bearing parts of
`C5_register_regardless_of_outcome`: a schema-rejecting collaborator still
registers the declared identifier. -/
theorem C5_register_regardless_of_outcome_witness :
    ((validateItem (fun _ => [(["o:title"], "bad")])
      ⟨fun _ => true, fun _ => true, fun _ => true, fun _ => true,
        fun _ => true, fun _ => true⟩
      (fun _ _ => .ok (200, none)) (fun _ l => l) (fun _ => "")
      ⟨false, false, "warning", false⟩ initSession
      [("o:id", .num 3),
       ("dcterms:identifier", .arr [litEntry "only-1"])]).1.item_identifiers =
      identRegister initSession.item_identifiers (.str "only-1") (.num 3))
    ∧ ((validateMedia (fun _ => [(["o:title"], "bad")])
      ⟨fun _ => true, fun _ => true, fun _ => true, fun _ => true,
        fun _ => true, fun _ => true⟩
      (fun _ _ => .ok (200, none)) (fun _ l => l) (fun _ => "")
      ⟨false, false, "warning", false⟩ initSession
      [("o:id", .num 4),
       ("dcterms:identifier", .arr [litEntry "only-2"])]).1.media_identifiers =
      identRegister initSession.media_identifiers (.str "only-2") (.num 4)) := by
  constructor
  · rw [C5_register_regardless_of_outcome.1 _ _ _ _ _ _ initSession
      [("o:id", .num 3), ("dcterms:identifier", .arr [litEntry "only-1"])]
      (.str "only-1") (by decide) (by decide)]
    rfl
  · rw [C5_register_regardless_of_outcome.2.1 _ _ _ _ _ _ initSession
      [("o:id", .num 4), ("dcterms:identifier", .arr [litEntry "only-2"])]
      (.str "only-2") (by decide) (by decide)]
    rfl

/-! ### Lemmas about duplicate-identifier finalization -/

theorem dupIdentifierErrors_nil_of_singletons (tn inn : String) :
    ∀ (m : List (JV × List JV)), (∀ p ∈ m, p.2.length ≤ 1) →
      dupIdentifierErrors tn inn m = [] := by
  intro m
  induction m with
  | nil => intro _; rfl
  | cons p rest ih =>
    intro h
    show (if 1 < p.2.length then _ else []) ++ dupIdentifierErrors tn inn rest = []
    rw [if_neg (by have := h p (List.mem_cons_self p rest); omega)]
    rw [List.nil_append]
    exact ih (fun q hq => h q (List.mem_cons_of_mem p hq))

theorem mem_dupIdentifierErrors (tn inn : String) :
    ∀ (m : List (JV × List JV)) (e : VError), e ∈ dupIdentifierErrors tn inn m →
      ∃ q ∈ m, e.resource_type = tn ∧ e.field = "dcterms:identifier" ∧
        e.error = dupMessage inn q := by
  intro m
  induction m with
  | nil => intro e he; exact absurd he (List.not_mem_nil e)
  | cons p rest ih =>
    intro e he
    have he' : e ∈ (if 1 < p.2.length then
        p.2.map (fun i => (⟨tn, i, "dcterms:identifier", dupMessage inn p⟩ : VError))
        else []) ++ dupIdentifierErrors tn inn rest := he
    rcases List.mem_append.mp he' with hl | hr
    · refine ⟨p, List.mem_cons_self p rest, ?_⟩
      by_cases hlen : 1 < p.2.length
      · rw [if_pos hlen] at hl
        obtain ⟨i, _, hie⟩ := List.mem_map.mp hl
        rw [← hie]
        exact ⟨rfl, rfl, rfl⟩
      · rw [if_neg hlen] at hl
        exact absurd hl (List.not_mem_nil e)
    · obtain ⟨q, hq, hprops⟩ := ih e hr
      exact ⟨q, List.mem_cons_of_mem p hq, hprops⟩

theorem count_dupIdentifierErrors (tn inn : String) :
    ∀ (m : List (JV × List JV)) (v : JV) (ids : List JV),
      m.Pairwise (fun p q => dupMessage inn p ≠ dupMessage inn q) →
      (v, ids) ∈ m → 2 ≤ ids.length → ∀ i : JV,
      (dupIdentifierErrors tn inn m).count
        ⟨tn, i, "dcterms:identifier", dupMessage inn (v, ids)⟩ = ids.count i := by
  intro m
  induction m with
  | nil => intro v ids _ hmem; exact absurd hmem (List.not_mem_nil _)
  | cons p rest ih =>
    intro v ids hpair hmem hlen i
    have hcons : dupIdentifierErrors tn inn (p :: rest) =
        (if 1 < p.2.length then
          p.2.map (fun j => (⟨tn, j, "dcterms:identifier", dupMessage inn p⟩ : VError))
          else []) ++ dupIdentifierErrors tn inn rest := rfl
    rw [hcons, List.count_append]
    rcases List.mem_cons.mp hmem with hp | hrest
    · -- the head group is (v, ids): the rest contributes nothing
      subst hp
      have hrest0 : (dupIdentifierErrors tn inn rest).count
          ⟨tn, i, "dcterms:identifier", dupMessage inn (v, ids)⟩ = 0 := by
        rw [List.count_eq_zero]
        intro hin
        obtain ⟨q, hq, -, -, herr⟩ := mem_dupIdentifierErrors tn inn rest _ hin
        have hne : dupMessage inn (v, ids) ≠ dupMessage inn q :=
          (List.pairwise_cons.mp hpair).1 q hq
        exact hne herr
      rw [hrest0]
      rw [if_pos (by show 1 < ids.length; omega)]
      have hinj : Function.Injective
          (fun j => (⟨tn, j, "dcterms:identifier", dupMessage inn (v, ids)⟩ : VError)) := by
        intro a b hab
        injection hab
      have hcount := List.count_map_of_injective (v, ids).2
        (fun j => (⟨tn, j, "dcterms:identifier", dupMessage inn (v, ids)⟩ : VError))
        hinj i
      rw [Nat.add_zero]
      exact hcount
    · -- the head group differs: it contributes nothing
      have hhead0 : ((if 1 < p.2.length then
          p.2.map (fun j => (⟨tn, j, "dcterms:identifier", dupMessage inn p⟩ : VError))
          else []) : List VError).count
          ⟨tn, i, "dcterms:identifier", dupMessage inn (v, ids)⟩ = 0 := by
        rw [List.count_eq_zero]
        intro hin
        have hne : dupMessage inn p ≠ dupMessage inn (v, ids) :=
          (List.pairwise_cons.mp hpair).1 (v, ids) hrest
        by_cases hl : 1 < p.2.length
        · rw [if_pos hl] at hin
          obtain ⟨j, -, hje⟩ := List.mem_map.mp hin
          exact hne (congrArg VError.error hje)
        · rw [if_neg hl] at hin
          exact absurd hin (List.not_mem_nil _)
      rw [hhead0, Nat.zero_add]
      exact ih v ids (List.pairwise_cons.mp hpair).2 hrest hlen i

theorem mem_dupIdentifierErrors_of_group (tn inn : String) :
    ∀ (m : List (JV × List JV)) (v : JV) (ids : List JV) (i : JV),
      (v, ids) ∈ m → 2 ≤ ids.length → i ∈ ids →
      (⟨tn, i, "dcterms:identifier", dupMessage inn (v, ids)⟩ : VError)
        ∈ dupIdentifierErrors tn inn m := by
  intro m
  induction m with
  | nil => intro v ids i hmem; exact absurd hmem (List.not_mem_nil _)
  | cons p rest ih =>
    intro v ids i hmem hlen hiid
    have hcons : dupIdentifierErrors tn inn (p :: rest) =
        (if 1 < p.2.length then
          p.2.map (fun j => (⟨tn, j, "dcterms:identifier", dupMessage inn p⟩ : VError))
          else []) ++ dupIdentifierErrors tn inn rest := rfl
    rw [hcons]
    rcases List.mem_cons.mp hmem with hp | hrest
    · apply List.mem_append_left
      subst hp
      rw [if_pos (by show 1 < ids.length; omega)]
      exact List.mem_map.mpr ⟨i, hiid, rfl⟩
    · exact List.mem_append_right _ (ih v ids i hrest hlen hiid)

/-- Claim C4: at finalization, an identifier group of size ≥ 2 yields one
Error per resource id in the group (each naming the identifier value and
listing the whole group), and identifier values registered by exactly one
resource id produce no diagnostic. Stated as: the finalize step appends
exactly the item-side then media-side group errors; a session whose groups
are all singletons is unchanged; each member id of a big group receives
its Error; and under pairwise-distinct group messages the number of Errors
for id `i` of group `(v, ids)` is exactly `ids.count i` — one per
occurrence, so exactly one for each id of a duplicate-free group. -/
theorem C4_duplicate_identifier_errors :
    (∀ st : Session, (checkDuplicateIdentifiers st).errors =
      st.errors ++ dupIdentifierErrors "Item" "items" st.item_identifiers ++
        dupIdentifierErrors "Media" "media" st.media_identifiers)
    ∧ (∀ st : Session, (∀ p ∈ st.item_identifiers, p.2.length ≤ 1) →
      (∀ p ∈ st.media_identifiers, p.2.length ≤ 1) →
      checkDuplicateIdentifiers st = st)
    ∧ (∀ (st : Session) (v : JV) (ids : List JV) (i : JV),
      (v, ids) ∈ st.item_identifiers → 2 ≤ ids.length → i ∈ ids →
      (⟨"Item", i, "dcterms:identifier", dupMessage "items" (v, ids)⟩ : VError)
        ∈ (checkDuplicateIdentifiers st).errors)
    ∧ (∀ (tn inn : String) (m : List (JV × List JV)) (v : JV) (ids : List JV),
      m.Pairwise (fun p q => dupMessage inn p ≠ dupMessage inn q) →
      (v, ids) ∈ m → 2 ≤ ids.length → ids.Nodup → ∀ i ∈ ids,
      (dupIdentifierErrors tn inn m).count
        ⟨tn, i, "dcterms:identifier", dupMessage inn (v, ids)⟩ = 1) := by
  refine ⟨?_, ?_, ?_, ?_⟩
  · intro st
    show st.errors ++ dupIdentifierErrors "Item" "items" st.item_identifiers ++
        dupIdentifierErrors "Media" "media" st.media_identifiers = _
    rfl
  · intro st hitem hmedia
    show { st with errors := (st.errors ++
        dupIdentifierErrors "Item" "items" st.item_identifiers) ++
        dupIdentifierErrors "Media" "media" st.media_identifiers } = st
    rw [dupIdentifierErrors_nil_of_singletons "Item" "items" _ hitem,
      dupIdentifierErrors_nil_of_singletons "Media" "media" _ hmedia,
      List.append_nil, List.append_nil]
  · intro st v ids i hmem hlen hiid
    show _ ∈ st.errors ++ dupIdentifierErrors "Item" "items" st.item_identifiers ++
      dupIdentifierErrors "Media" "media" st.media_identifiers
    rw [List.append_assoc]
    apply List.mem_append_right
    apply List.mem_append_left
    exact mem_dupIdentifierErrors_of_group "Item" "items" st.item_identifiers
      v ids i hmem hlen hiid
  · intro tn inn m v ids hpair hmem hlen hnodup i hiid
    rw [count_dupIdentifierErrors tn inn m v ids hpair hmem hlen i]
    exact List.count_eq_one_of_mem hnodup hiid

/-- Concrete instantiation of the hypothesis-bearing parts of
`C4_duplicate_identifier_errors`: a singleton group emits nothing, a
two-member group emits the duplicate Error for each member, exactly once. -/
theorem C4_duplicate_identifier_errors_witness :
    (checkDuplicateIdentifiers
      { initSession with item_identifiers := [(.str "b", [.num 3])] } =
      { initSession with item_identifiers := [(.str "b", [.num 3])] })
    ∧ ((⟨"Item", .num 1, "dcterms:identifier",
        dupMessage "items" (.str "a", [.num 1, .num 2])⟩ : VError) ∈
      (checkDuplicateIdentifiers
        { initSession with
          item_identifiers := [(.str "a", [.num 1, .num 2])] }).errors)
    ∧ ((dupIdentifierErrors "Item" "items"
        [(.str "a", [.num 1, .num 2]), (.str "b", [.num 3, .num 4])]).count
      ⟨"Item", .num 1, "dcterms:identifier",
        dupMessage "items" (.str "a", [.num 1, .num 2])⟩ = 1) :=
  ⟨C4_duplicate_identifier_errors.2.1 _ (by decide) (by decide),
   C4_duplicate_identifier_errors.2.2.1 _ (.str "a") [.num 1, .num 2] (.num 1)
     (by decide) (by decide) (by decide),
   C4_duplicate_identifier_errors.2.2.2 "Item" "items" _ (.str "a")
     [.num 1, .num 2] (by decide) (by decide) (by decide) (by decide) (.num 1)
     (by decide)⟩

/-! ### Checking the same 404 URI twice -/

/-- Counterexample to claim C9 as stated: checking
`https://example.com/notfound` twice against a transport that always
returns HTTP 404 issues exactly one network request, but produces TWO
Errors, not one — the cache short-circuits only the network call, while
each `check_uri_async` call classifies the (cached) result anew and
appends its own diagnostic. -/
theorem C9_single_error_counterexample :
    (let T : Transport := fun _ _ => .ok (404, none)
     let cfg : Config := ⟨true, false, "warning", false⟩
     let run1 := checkUriAsync T (fun _ l => l) (fun _ => "") cfg initSession
       "https://example.com/notfound" "Item" (.num 1) "dcterms:source[0].@id"
     let run2 := checkUriAsync T (fun _ l => l) (fun _ => "") cfg run1.1
       "https://example.com/notfound" "Item" (.num 1) "dcterms:source[0].@id"
     (run1.2 ++ run2.2).length = 1 ∧ run2.1.errors.length = 2
       ∧ ¬ run2.1.errors.length = 1) := by
  exact ⟨rfl, rfl, by decide⟩

/-- Claim C9, amended: checking the same 404 URI twice issues exactly one
network call (a single HEAD with redirects disabled; the second check is
served from the cache), and EACH of the two checks produces one Error —
two in total — each with a message containing `"HTTP 404"`. -/
theorem C9_repeat_404_amended :
    (let T : Transport := fun _ _ => .ok (404, none)
     let cfg : Config := ⟨true, false, "warning", false⟩
     let run1 := checkUriAsync T (fun _ l => l) (fun _ => "") cfg initSession
       "https://example.com/notfound" "Item" (.num 1) "dcterms:source[0].@id"
     let run2 := checkUriAsync T (fun _ l => l) (fun _ => "") cfg run1.1
       "https://example.com/notfound" "Item" (.num 1) "dcterms:source[0].@id"
     run1.2 ++ run2.2 = [⟨"HEAD", "https://example.com/notfound", false⟩]
       ∧ run2.1.errors.map (fun e => e.error) =
         ["URI returned HTTP 404: https://example.com/notfound",
          "URI returned HTTP 404: https://example.com/notfound"]
       ∧ (∀ e ∈ run2.1.errors, strContains e.error "HTTP 404" = true)
       ∧ run2.1.checked_uris = 2 ∧ run2.1.failed_uris = 2
       ∧ run2.1.warnings = []
       ∧ cacheLookup run2.1.uri_cache "https://example.com/notfound" =
           some (404, none)) := by
  exact ⟨rfl, rfl, by decide, rfl, rfl, rfl, rfl⟩

end SGB
